import Mathlib

/-!
Shallow embedding of the BOL (bill-of-lading) extraction engine of the
`invoice_parser` repository, covering:

  * `src/app/models/bol.py`            (ShipmentItem, Address, BOLData)
  * `src/app/services/bol_document_ai.py`  (BOLDocumentAIService: the
    entity-extraction cascade, regex battery, scalar parsers, address
    assembler, line-item extractor, multi-record splitter, confidence
    scorer)
  * `src/app/services/bol_parser.py`   (BOLParser.validate_bol_data)

Modelling conventions:
  * Python `str` is Lean `String` (internally `List Char`); only ASCII
    behaviour is relevant to the documents handled here.
  * Python `float` / `decimal.Decimal` are modelled as exact rationals
    `ℚ`; `datetime.date` as a record of numerals.
  * Python `None` / optional values are `Option`; Python string
    truthiness (`None` and `""` falsy) is made explicit.
  * Python `dict` is an association list with first-match lookup and
    in-place overwrite on insert (insertion order is retained as in
    CPython; no claim depends on the order of entries).
  * `re` patterns are transcribed into an explicit regex AST evaluated
    by a fuel-bounded backtracking matcher with Python's leftmost /
    greedy / lazy preferences.
  * Impure details (logging, timestamps, network clients, asyncio) are
    omitted; all functions are the pure data transformations of the
    source.
-/

/-! ## Python string helpers -/

/-- The characters Python's `str.strip()` and the regex class `\s` treat as
whitespace (ASCII subset). -/
def isPySpace (c : Char) : Bool :=
  c = ' ' || c = '\t' || c = '\n' || c = '\r' || c = '\x0b' || c = '\x0c'

def pyStripL (l : List Char) : List Char :=
  ((l.dropWhile isPySpace).reverse.dropWhile isPySpace).reverse

/-- Python `str.strip()`. -/
def pyStrip (s : String) : String := String.mk (pyStripL s.toList)

/-- Python `str.lower()` (ASCII). -/
def pyLower (s : String) : String := String.mk (s.toList.map Char.toLower)

/-- Python `needle in hay` substring test. -/
def pyIn (needle hay : String) : Bool :=
  hay.toList.tails.any (fun t => needle.toList.isPrefixOf t)

/-- Python slicing `l[st:en]` (clamping out-of-range indices). -/
def pySlice (l : List Char) (st en : Nat) : List Char := (l.take en).drop st

/-- Python `str.replace(c₁, c₂)` for single-character arguments. -/
def pyReplaceChar (c₁ c₂ : Char) (s : String) : String :=
  String.mk (s.toList.map (fun c => if c = c₁ then c₂ else c))

/-- Python `str.capitalize()`: first character upper-cased, rest lower-cased. -/
def pyCapitalize (s : String) : String :=
  match s.toList with
  | [] => ""
  | c :: rest => String.mk (c.toUpper :: rest.map Char.toLower)

/-- Python `str.rstrip(c)` for a single-character argument. -/
def pyRstripChar (c : Char) (s : String) : String :=
  String.mk ((s.toList.reverse.dropWhile (· = c)).reverse)

/-- Index of the first occurrence of `needle` in `hay`, if any. -/
def firstInfixIdx (needle hay : List Char) : Option Nat :=
  (List.range (hay.length + 1)).find? (fun i => needle.isPrefixOf (hay.drop i))

/-- Python `s.split(sep, 1)` restricted to what the source needs: the text
after the first occurrence of `sep` (`parts[1]`), when `sep` occurs. -/
def pySplitOnceAfter (sep s : String) : Option String :=
  (firstInfixIdx sep.toList s.toList).map
    (fun i => String.mk (s.toList.drop (i + sep.toList.length)))

/-- Truthiness of a Python optional string: `None` and `""` are falsy. -/
def pyTruthyStr (o : Option String) : Bool :=
  match o with
  | some s => s != ""
  | none => false

/-- Python `a or b` on optional strings (first truthy operand, else `b`). -/
def pyOr (a b : Option String) : Option String :=
  if pyTruthyStr a then a else b

/-! ## Regex AST

Transcription target for the `re` patterns in the source.  `CI` is one
character-class item; classes with `neg := true` are `[^...]`. -/

inductive CI where
  | ch (c : Char)
  | range (lo hi : Char)
  | digit
  | space
  | nonspace
  deriving Repr, DecidableEq

inductive RE where
  | eps
  | str (s : List Char)
  | cls (neg : Bool) (items : List CI)
  | dot
  | bosAnchor
  | eosAnchor
  | cat (a b : RE)
  | alt (a b : RE)
  | star (lazy : Bool) (a : RE)
  | grp (i : Nat) (a : RE)
  | look (neg : Bool) (a : RE)
  deriving Repr, DecidableEq

def ciMatchBase (it : CI) (c : Char) : Bool :=
  match it with
  | .ch c' => c = c'
  | .range lo hi => lo ≤ c && c ≤ hi
  | .digit => c.isDigit
  | .space => isPySpace c
  | .nonspace => !isPySpace c

/-- Class-item match, honouring `re.IGNORECASE` when `ic` is set. -/
def ciMatch (ic : Bool) (it : CI) (c : Char) : Bool :=
  ciMatchBase it c ||
    (ic && (ciMatchBase it c.toLower || ciMatchBase it c.toUpper))

/-- Character equality, honouring `re.IGNORECASE` when `ic` is set. -/
def cEq (ic : Bool) (a b : Char) : Bool :=
  a = b || (ic && a.toLower = b.toLower)

def litHere (ic : Bool) : List Char → List Char → Bool
  | [], _ => true
  | _ :: _, [] => false
  | a :: as_, b :: bs => cEq ic a b && litHere ic as_ bs

/-- Captures: most recent capture of each group first. -/
abbrev Caps := List (Nat × String)

/-- Backtracking matcher in continuation style.  `k` receives the end
position and captures of one candidate match of `r`; returning `none`
from `k` asks for the next alternative (Python backtracking order:
alternation left-first, greedy repetition longest-first, lazy
repetition shortest-first).  `fuel` only bounds recursion depth; the
callers below always supply enough fuel for the patterns at hand. -/
def reM (ic : Bool) : Nat → RE → List Char → Nat → Caps →
    (Nat → Caps → Option (Nat × Caps)) → Option (Nat × Caps)
  | 0, _, _, _, _, _ => none
  | fuel + 1, r, s, pos, caps, k =>
    match r with
    | .eps => k pos caps
    | .str l => if litHere ic l (s.drop pos) then k (pos + l.length) caps else none
    | .cls neg items =>
      match s[pos]? with
      | some c => if (items.any (fun it => ciMatch ic it c)) != neg then k (pos + 1) caps else none
      | none => none
    | .dot =>
      match s[pos]? with
      | some c => if c ≠ '\n' then k (pos + 1) caps else none
      | none => none
    | .bosAnchor => if pos = 0 then k pos caps else none
    | .eosAnchor =>
      if pos = s.length || (pos + 1 = s.length && s[pos]? = some '\n') then k pos caps else none
    | .cat a b => reM ic fuel a s pos caps (fun p c => reM ic fuel b s p c k)
    | .alt a b =>
      match reM ic fuel a s pos caps k with
      | some res => some res
      | none => reM ic fuel b s pos caps k
    | .star lz a =>
      let once := fun (kk : Nat → Caps → Option (Nat × Caps)) =>
        reM ic fuel a s pos caps
          (fun p c => if p = pos then none else reM ic fuel (.star lz a) s p c kk)
      if lz then
        match k pos caps with
        | some res => some res
        | none => once k
      else
        match once k with
        | some res => some res
        | none => k pos caps
    | .grp i a =>
      reM ic fuel a s pos caps (fun p c => k p ((i, String.mk (pySlice s pos p)) :: c))
    | .look neg a =>
      match reM ic fuel a s pos caps (fun p c => some (p, c)) with
      | some _ => if neg then none else k pos caps
      | none => if neg then k pos caps else none

def reSize : RE → Nat
  | .eps | .str _ | .cls _ _ | .dot | .bosAnchor | .eosAnchor => 1
  | .cat a b | .alt a b => reSize a + reSize b + 1
  | .star _ a | .grp _ a | .look _ a => reSize a + 1

/-- Depth bound that is always sufficient for the patterns and inputs used
here (each consumed character unwinds at most `reSize r + 1` constructors). -/
def reFuel (r : RE) (s : List Char) : Nat :=
  (reSize r + 2) * (s.length + 2) + 100

structure RMatch where
  start : Nat
  stop : Nat
  caps : Caps
  deriving Repr, DecidableEq

/-- Attempt a match of `r` anchored at position `pos` (Python `re.match`
when `pos = 0`). -/
def reMatchAt (ic : Bool) (r : RE) (s : List Char) (pos : Nat) : Option RMatch :=
  (reM ic (reFuel r s) r s pos [] (fun p c => some (p, c))).map
    (fun pc => ⟨pos, pc.1, pc.2⟩)

/-- Python `re.search` starting at position `i`: leftmost match wins. -/
def reSearchFrom (ic : Bool) (r : RE) (s : List Char) (i : Nat) : Option RMatch :=
  ((List.range (s.length + 1)).drop i).findSome? (fun p => reMatchAt ic r s p)

def reSearch (ic : Bool) (r : RE) (s : List Char) : Option RMatch :=
  reSearchFrom ic r s 0

/-- `m.group(i)` for a group that participated in the match, else `""`. -/
def grpD (m : RMatch) (i : Nat) : String :=
  match m.caps.find? (fun p => p.1 = i) with
  | some p => p.2
  | none => ""

/-- `m.group(0)`: the full matched text. -/
def grp0 (s : List Char) (m : RMatch) : String := String.mk (pySlice s m.start m.stop)

def reFindIterGo (ic : Bool) (r : RE) (s : List Char) : Nat → Nat → List RMatch
  | 0, _ => []
  | fuel + 1, i =>
    if i > s.length then []
    else
      match reSearchFrom ic r s i with
      | none => []
      | some m =>
        m :: reFindIterGo ic r s fuel (if m.stop > m.start then m.stop else m.start + 1)

/-- Python `re.finditer`: successive non-overlapping leftmost matches. -/
def reFindIter (ic : Bool) (r : RE) (s : List Char) : List RMatch :=
  reFindIterGo ic r s (s.length + 1) 0

def reSubEmptyGo (ic : Bool) (r : RE) (s : List Char) : Nat → Nat → List Char
  | 0, i => s.drop i
  | fuel + 1, i =>
    if i > s.length then []
    else
      match reSearchFrom ic r s i with
      | none => s.drop i
      | some m =>
        if m.stop > m.start then pySlice s i m.start ++ reSubEmptyGo ic r s fuel m.stop
        else s.drop i

/-- Python `re.sub(r, '', s)` (every pattern substituted this way in the
source matches at least one character). -/
def reSubEmpty (ic : Bool) (r : RE) (s : String) : String :=
  String.mk (reSubEmptyGo ic r s.toList (s.toList.length + 1) 0)

/-! Pattern-building helpers. -/

def rs (s : String) : RE := .str s.toList

def rcat (l : List RE) : RE := l.foldr RE.cat .eps

def raltL : List RE → RE
  | [] => .eps
  | [r] => r
  | r :: rest => .alt r (raltL rest)

/-- `x?` (greedy option). -/
def ropt (a : RE) : RE := .alt a .eps

/-- `x*` (greedy). -/
def rstar (a : RE) : RE := .star false a

/-- `x*?` (lazy). -/
def rstarL (a : RE) : RE := .star true a

/-- `x+` (greedy). -/
def rplus (a : RE) : RE := .cat a (rstar a)

/-- `x+?` (lazy). -/
def rplusL (a : RE) : RE := .cat a (rstarL a)

def dC : RE := .cls false [.digit]
def sC : RE := .cls false [.space]
def anyC : RE := .cls false [.space, .nonspace]
def nnC : RE := .cls true [.ch '\n']
def azC : RE := .cls false [.range 'a' 'z']
def AZC : RE := .cls false [.range 'A' 'Z']
/-- `\d{1,2}` (greedy: two digits preferred). -/
def d12 : RE := .cat dC (ropt dC)
def d2 : RE := .cat dC dC
def d3 : RE := rcat [dC, dC, dC]
def d4 : RE := rcat [dC, dC, dC, dC]
def d5 : RE := rcat [dC, dC, dC, dC, dC]

/-! ## The `re` patterns of `bol_document_ai.py`, transcribed 1:1.

`[\s\n]` equals `\s` (newline is whitespace); it is transcribed as `sC`. -/

/-- `BOL\s*#\s*\n\s*([\d]+)` -/
def bolPat1 : RE := rcat [rs "BOL", rstar sC, rs "#", rstar sC, rs "\n", rstar sC, .grp 1 (rplus dC)]

/-- `BOL\s*#\s*([\d]+)` (also the marker of `_detect_multiple_bols`). -/
def bolPat2 : RE := rcat [rs "BOL", rstar sC, rs "#", rstar sC, .grp 1 (rplus dC)]

/-- `PRO\s*#[\s\n]*DATE[\s\n]+([\d]+)` -/
def proPat1 : RE := rcat [rs "PRO", rstar sC, rs "#", rstar sC, rs "DATE", rplus sC, .grp 1 (rplus dC)]

/-- `PRO\s*#[\s\n]+([\d]+)` -/
def proPat2 : RE := rcat [rs "PRO", rstar sC, rs "#", rplus sC, .grp 1 (rplus dC)]

/-- `NAME OF CARRIER[\s\n]+PRO\s*#[\s\n]+DATE[\s\n]+BOL\s*#[\s\n]+([^\n]+(?:\n[^\d\n][^\n]+)?)` -/
def carrierPat1 : RE :=
  rcat [rs "NAME OF CARRIER", rplus sC, rs "PRO", rstar sC, rs "#", rplus sC, rs "DATE",
    rplus sC, rs "BOL", rstar sC, rs "#", rplus sC,
    .grp 1 (rcat [rplus nnC, ropt (rcat [rs "\n", .cls true [.digit, .ch '\n'], rplus nnC])])]

/-- `NAME OF CARRIER[\s\n]+([^\n]+(?:\s*-\s*[^\n]+)?)` -/
def carrierPat2 : RE :=
  rcat [rs "NAME OF CARRIER", rplus sC,
    .grp 1 (rcat [rplus nnC, ropt (rcat [rstar sC, rs "-", rstar sC, rplus nnC])])]

/-- `\d{1,2}/\d{1,2}/\d{4}.*$` (carrier-name cleanup). -/
def carrierCleanPat : RE := rcat [d12, rs "/", d12, rs "/", d4, rstar .dot, .eosAnchor]

/-- `(\d{1,2}/\d{1,2}/\d{4})` -/
def datePat1 : RE := .grp 1 (rcat [d12, rs "/", d12, rs "/", d4])

/-- `(\d{1,2}/\d{1,2}/\d{2})(?!\d)` -/
def datePat2 : RE := rcat [.grp 1 (rcat [d12, rs "/", d12, rs "/", d2]), .look true dC]

/-- `(\d{1,2}-\d{1,2}-\d{4})` -/
def datePat3 : RE := .grp 1 (rcat [d12, rs "-", d12, rs "-", d4])

/-- `[^,\n]+,\s*[A-Z]{2}\s+\d{5}` (shared city-state-zip tail). -/
def cszTail : RE :=
  rcat [rplus (.cls true [.ch ',', .ch '\n']), rs ",", rstar sC, AZC, AZC, rplus sC, d5]

/-- `ORIGIN:[\s\n]+([^\n]+)[\s\n]+(\d+[^\n]+)[\s\n]+([^,\n]+,\s*[A-Z]{2}\s+\d{5})` -/
def originPat : RE :=
  rcat [rs "ORIGIN:", rplus sC, .grp 1 (rplus nnC), rplus sC,
    .grp 2 (rcat [rplus dC, rplus nnC]), rplus sC, .grp 3 cszTail]

/-- `([^,]+),\s*([A-Z]{2})\s+(\d{5})` (used with `re.match`). -/
def cityStateZipPat : RE :=
  rcat [.grp 1 (rplus (.cls true [.ch ','])), rs ",", rstar sC, .grp 2 (rcat [AZC, AZC]),
    rplus sC, .grp 3 d5]

/-- `SHIPPER INFORMATION[\s\n]+(?:CONSIGNEE INFORMATION[\s\n]+)?([^\n]+)` -/
def shipperFallbackPat : RE :=
  rcat [rs "SHIPPER INFORMATION", rplus sC, ropt (rcat [rs "CONSIGNEE INFORMATION", rplus sC]),
    .grp 1 (rplus nnC)]

/-- `CONSIGNEE INFORMATION.*$` (shipper-name cleanup). -/
def consInfoCleanPat : RE := rcat [rs "CONSIGNEE INFORMATION", rstar .dot, .eosAnchor]

/-- `/\s*C\/O.*$` (shipper-name cleanup). -/
def coCleanPat : RE := rcat [rs "/", rstar sC, rs "C/O", rstar .dot, .eosAnchor]

/-- `\d{3}[-.]?\d{3}[-.]?\d{4}` (phone-number tail). -/
def phonePat : RE :=
  rcat [d3, ropt (.cls false [.ch '-', .ch '.']), d3, ropt (.cls false [.ch '-', .ch '.']), d4]

/-- `(Donna Merlin|[A-Z][a-z]+\s+[A-Z][a-z]+)[\s\n]+(\d{3}[-.]?\d{3}[-.]?\d{4})` -/
def shipperContactPat : RE :=
  rcat [.grp 1 (raltL [rs "Donna Merlin", rcat [AZC, rplus azC, rplus sC, AZC, rplus azC]]),
    rplus sC, .grp 2 phonePat]

/-- `[-–]` -/
def dashC : RE := .cls false [.ch '-', .ch '–']

/-- `(\d+)\s*[-–]\s*([^\n]*Scheels)` -/
def consigneePatA : RE :=
  rcat [.grp 1 (rplus dC), rstar sC, dashC, rstar sC, .grp 2 (rcat [rstar nnC, rs "Scheels"])]

/-- `CONSIGNEE:[\s\n]+(\d+\s*[-–]\s*[^\n]+)` -/
def consigneePatB : RE :=
  rcat [rs "CONSIGNEE:", rplus sC, .grp 1 (rcat [rplus dC, rstar sC, dashC, rstar sC, rplus nnC])]

/-- `CONSIGNEE:[\s\n]+([^\n]+)` -/
def consigneePatC : RE := rcat [rs "CONSIGNEE:", rplus sC, .grp 1 (rplus nnC)]

/-- `^\d+\s*[-–]\s*` (consignee-name cleanup via `re.sub`). -/
def numDashCleanPat : RE := rcat [.bosAnchor, rplus dC, rstar sC, dashC, rstar sC]

/-- `CONSIGNEE:[\s\n]+([\s\S]*?)(?:DOCK TYPE|ACCESS\.|DELIVERY #|PICK UP #|NOTES|FREIGHT READY TIME|FREIGHT CHARGES)` -/
def consigneeBlockPat : RE :=
  rcat [rs "CONSIGNEE:", rplus sC, .grp 1 (rstarL anyC),
    raltL [rs "DOCK TYPE", rs "ACCESS.", rs "DELIVERY #", rs "PICK UP #", rs "NOTES",
      rs "FREIGHT READY TIME", rs "FREIGHT CHARGES"]]

/-- `(\d+[^\n]+(?:Street|St|Avenue|Ave|Road|Rd|Drive|Dr|Boulevard|Blvd|Circle|Way)[^\n]*)(?:[\s\n]+(?:Ste|Suite|Apt|Unit)\s+[^\n]+)?[\s\n]+([^,\n]+,\s*[A-Z]{2}\s+\d{5})` -/
def consigneeAddrPat : RE :=
  rcat [.grp 1 (rcat [rplus dC, rplus nnC,
      raltL [rs "Street", rs "St", rs "Avenue", rs "Ave", rs "Road", rs "Rd", rs "Drive",
        rs "Dr", rs "Boulevard", rs "Blvd", rs "Circle", rs "Way"], rstar nnC]),
    ropt (rcat [rplus sC, raltL [rs "Ste", rs "Suite", rs "Apt", rs "Unit"], rplus sC, rplus nnC]),
    rplus sC, .grp 2 cszTail]

/-- `(\d+[^\n]+)[\s\n]+((?:Ste|Suite|Apt|Unit)\s+[^\n]+)` -/
def suitePat : RE :=
  rcat [.grp 1 (rcat [rplus dC, rplus nnC]), rplus sC,
    .grp 2 (rcat [raltL [rs "Ste", rs "Suite", rs "Apt", rs "Unit"], rplus sC, rplus nnC])]

/-- `Shipping\s*&?\s*Receiving[\s\n]+(\d{3}[-.]?\d{3}[-.]?\d{4})` -/
def consigneeContactPat : RE :=
  rcat [rs "Shipping", rstar sC, ropt (rs "&"), rstar sC, rs "Receiving", rplus sC, .grp 1 phonePat]

/-- `FREIGHT CHARGES:\s*(Collect|Prepaid|Third Party)` (IGNORECASE). -/
def freightTermsPat : RE :=
  rcat [rs "FREIGHT CHARGES:", rstar sC, .grp 1 (raltL [rs "Collect", rs "Prepaid", rs "Third Party"])]

/-- `SEND FREIGHT BILL TO:[\s\n]+([^\n]+)[\s\n]+(\d+[^\n]+)[\s\n]+([^,\n]+,\s*[A-Z]{2}\s+\d{5})` -/
def billToPat : RE :=
  rcat [rs "SEND FREIGHT BILL TO:", rplus sC, .grp 1 (rplus nnC), rplus sC,
    .grp 2 (rcat [rplus dC, rplus nnC]), rplus sC, .grp 3 cszTail]

/-- `TOTAL[\s\n]+\d+\s+Pallets[\s\n]+(\d+)\s*lbs` (IGNORECASE). -/
def weightPat1 : RE :=
  rcat [rs "TOTAL", rplus sC, rplus dC, rplus sC, rs "Pallets", rplus sC,
    .grp 1 (rplus dC), rstar sC, rs "lbs"]

/-- `SHIPPING WEIGHT[\s\n]+[^\n]*?(\d+)\s*lbs` (IGNORECASE). -/
def weightPat2 : RE :=
  rcat [rs "SHIPPING WEIGHT", rplus sC, rstarL nnC, .grp 1 (rplus dC), rstar sC, rs "lbs"]

/-- `(\d{3,})\s*lbs` (IGNORECASE). -/
def weightPat3 : RE := rcat [.grp 1 (rcat [d3, rstar dC]), rstar sC, rs "lbs"]

/-- `(\d+)\s+Pallets[\s\n]+\d+\s*lbs` (IGNORECASE). -/
def palletPat1 : RE :=
  rcat [.grp 1 (rplus dC), rplus sC, rs "Pallets", rplus sC, rplus dC, rstar sC, rs "lbs"]

/-- `(\d+)\s*Pallets?` (IGNORECASE). -/
def palletPat2 : RE := rcat [.grp 1 (rplus dC), rstar sC, rs "Pallet", ropt (rs "s")]

/-- `\*+Special Instructions\*+[\s\n]+([^\n]+)` -/
def specialPat : RE :=
  rcat [rplus (.cls false [.ch '*']), rs "Special Instructions", rplus (.cls false [.ch '*']),
    rplus sC, .grp 1 (rplus nnC)]

/-- `BILLING ID[\s\n]+(\d+)` -/
def billingIdPat : RE := rcat [rs "BILLING ID", rplus sC, .grp 1 (rplus dC)]

/-- `CUSTOMER PO[\s\n]+(\d+)` -/
def customerPoPat : RE := rcat [rs "CUSTOMER PO", rplus sC, .grp 1 (rplus dC)]

/-- `CUSTOM ID[\s\n]+(\d+)` -/
def customIdPat : RE := rcat [rs "CUSTOM ID", rplus sC, .grp 1 (rplus dC)]

/-- `#\s*PACKAGES[\s\S]*?(?=FREIGHT CHARGES:|TOTAL|RECEIVED|$)` (IGNORECASE). -/
def itemSectionPat : RE :=
  rcat [rs "#", rstar sC, rs "PACKAGES", rstarL anyC,
    .look false (raltL [rs "FREIGHT CHARGES:", rs "TOTAL", rs "RECEIVED", .eosAnchor])]

/-- `NMFC\s*#([\d-]+)[,\s]+([^,\n]+)` -/
def nmfcPat : RE :=
  rcat [rs "NMFC", rstar sC, rs "#", .grp 1 (rplus (.cls false [.digit, .ch '-'])),
    rplus (.cls false [.ch ',', .space]), .grp 2 (rplus (.cls true [.ch ',', .ch '\n']))]

/-- `(\d+)\s+(Pallets?|Cartons?|Boxes?|Pieces?)` (IGNORECASE). -/
def qtyPat : RE :=
  rcat [.grp 1 (rplus dC), rplus sC,
    .grp 2 (raltL [rcat [rs "Pallet", ropt (rs "s")], rcat [rs "Carton", ropt (rs "s")],
      rcat [rs "Boxe", ropt (rs "s")], rcat [rs "Piece", ropt (rs "s")]])]

/-- `(\d+)\s*lbs` (IGNORECASE). -/
def itemWeightPat : RE := rcat [.grp 1 (rplus dC), rstar sC, rs "lbs"]

/-- `CLASS\s*\n?\s*(\d+)` -/
def classPat : RE := rcat [rs "CLASS", rstar sC, ropt (rs "\n"), rstar sC, .grp 1 (rplus dC)]

/-- `(\d+)\s*x\s*(\d+)\s*x\s*(\d+)` -/
def dimPat : RE :=
  rcat [.grp 1 (rplus dC), rstar sC, rs "x", rstar sC, .grp 2 (rplus dC), rstar sC, rs "x",
    rstar sC, .grp 3 (rplus dC)]

/-- `PCF.*$` (item-description cleanup). -/
def pcfCleanPat : RE := rcat [rs "PCF", rstar .dot, .eosAnchor]

/-- `^(.+?),?\s+([A-Z]{2})\s+(\d{5}(?:-\d{4})?)$` (`_parse_address_block`, `re.match`). -/
def addrBlockLastLinePat : RE :=
  rcat [.bosAnchor, .grp 1 (rplusL .dot), ropt (rs ","), rplus sC, .grp 2 (rcat [AZC, AZC]),
    rplus sC, .grp 3 (rcat [d5, ropt (rcat [rs "-", d4])]), .eosAnchor]

/-! ## Scalar parsers (`_parse_date`, `_parse_amount`, `_parse_float`, `_parse_int`)

`_parse_date` tries `datetime.strptime` on an ordered list of format
strings, treating `ValueError` as "try the next format".  The format
machinery below mirrors CPython `_strptime`: `%Y` is exactly four
digits, `%y` exactly two (≤ 68 maps to 20xx, else 19xx), `%m`/`%d` are
`\d\d|\d` (two digits preferred), `%B`/`%b` are case-insensitive month
names, literal whitespace in a format matches `\s+`, and the whole
(stripped) input must be consumed.  A parsed triple is then validated
exactly as `datetime.date` would (month 1–12, day within the month,
year 1–9999). -/

structure PDate where
  year : Nat
  month : Nat
  day : Nat
  deriving Repr, DecidableEq

inductive FTok where
  | lit (c : Char)
  | ws
  | dY
  | dm
  | dd
  | dy
  | dB
  | db
  deriving Repr, DecidableEq

def monthNamesFull : List (String × Nat) :=
  [("january", 1), ("february", 2), ("march", 3), ("april", 4), ("may", 5), ("june", 6),
   ("july", 7), ("august", 8), ("september", 9), ("october", 10), ("november", 11),
   ("december", 12)]

def monthNamesAbbr : List (String × Nat) :=
  [("jan", 1), ("feb", 2), ("mar", 3), ("apr", 4), ("may", 5), ("jun", 6), ("jul", 7),
   ("aug", 8), ("sep", 9), ("oct", 10), ("nov", 11), ("dec", 12)]

/-- Exactly `n` leading digits, returned as a numeral with the rest. -/
def takeDigits : Nat → List Char → Option (Nat × List Char)
  | 0, s => some (0, s)
  | _ + 1, [] => none
  | n + 1, c :: rest =>
    if c.isDigit then
      (takeDigits n rest).map (fun vr => ((c.toNat - '0'.toNat) * 10 ^ n + vr.1, vr.2))
    else none

/-- Case-insensitive month-name prefix match (no name is a prefix of
another within either list, so list order is immaterial). -/
def takeMonthName (names : List (String × Nat)) (s : List Char) : Option (Nat × List Char) :=
  names.findSome? (fun nm =>
    if litHere true nm.1.toList s then some (nm.2, s.drop nm.1.toList.length) else none)

structure StAcc where
  y : Option Nat
  m : Option Nat
  d : Option Nat
  deriving Repr, DecidableEq

/-- Run a format token list over the input (anchored; trailing input left
over means the format fails, as in `_strptime`).  `%m`/`%d` keep
regex-alternation semantics: two digits first and, on failure of the
remaining format, one digit. -/
def runFmt : List FTok → List Char → StAcc → Option StAcc
  | [], s, acc => if s.isEmpty then some acc else none
  | t :: ts, s, acc =>
    match t with
    | .lit c =>
      match s with
      | c' :: rest => if c' = c then runFmt ts rest acc else none
      | [] => none
    | .ws =>
      match s with
      | c :: rest =>
        if isPySpace c then runFmt ts (rest.dropWhile isPySpace) acc else none
      | [] => none
    | .dY => (takeDigits 4 s).bind (fun vr => runFmt ts vr.2 { acc with y := some vr.1 })
    | .dy =>
      (takeDigits 2 s).bind (fun vr =>
        runFmt ts vr.2 { acc with y := some (if vr.1 ≤ 68 then 2000 + vr.1 else 1900 + vr.1) })
    | .dm =>
      match (takeDigits 2 s).bind (fun vr => runFmt ts vr.2 { acc with m := some vr.1 }) with
      | some r => some r
      | none => (takeDigits 1 s).bind (fun vr => runFmt ts vr.2 { acc with m := some vr.1 })
    | .dd =>
      match (takeDigits 2 s).bind (fun vr => runFmt ts vr.2 { acc with d := some vr.1 }) with
      | some r => some r
      | none => (takeDigits 1 s).bind (fun vr => runFmt ts vr.2 { acc with d := some vr.1 })
    | .dB => (takeMonthName monthNamesFull s).bind (fun vr => runFmt ts vr.2 { acc with m := some vr.1 })
    | .db => (takeMonthName monthNamesAbbr s).bind (fun vr => runFmt ts vr.2 { acc with m := some vr.1 })

def isLeapYear (y : Nat) : Bool := y % 4 = 0 && (y % 100 ≠ 0 || y % 400 = 0)

def daysInMonth (y m : Nat) : Nat :=
  if m = 2 then (if isLeapYear y then 29 else 28)
  else if m = 4 || m = 6 || m = 9 || m = 11 then 30
  else 31

/-- `datetime.strptime(s, fmt).date()` with `ValueError` as `none`. -/
def strptimeDate (toks : List FTok) (s : List Char) : Option PDate :=
  (runFmt toks s ⟨none, none, none⟩).bind (fun acc =>
    match acc.y, acc.m, acc.d with
    | some y, some m, some d =>
      if 1 ≤ y && y ≤ 9999 && 1 ≤ m && m ≤ 12 && 1 ≤ d && d ≤ daysInMonth y m then
        some ⟨y, m, d⟩
      else none
    | _, _, _ => none)

/-- The ten formats tried by `_parse_date`, in order. -/
def dateFormats : List (List FTok) :=
  [[.dY, .lit '-', .dm, .lit '-', .dd],          -- %Y-%m-%d
   [.dm, .lit '/', .dd, .lit '/', .dY],          -- %m/%d/%Y
   [.dd, .lit '/', .dm, .lit '/', .dY],          -- %d/%m/%Y
   [.dY, .lit '/', .dm, .lit '/', .dd],          -- %Y/%m/%d
   [.dB, .ws, .dd, .lit ',', .ws, .dY],          -- %B %d, %Y
   [.db, .ws, .dd, .lit ',', .ws, .dY],          -- %b %d, %Y
   [.dd, .lit '-', .dm, .lit '-', .dY],          -- %d-%m-%Y
   [.dm, .lit '-', .dd, .lit '-', .dY],          -- %m-%d-%Y
   [.dm, .lit '/', .dd, .lit '/', .dy],          -- %m/%d/%y
   [.dd, .lit '/', .dm, .lit '/', .dy]]          -- %d/%m/%y

/-- `BOLDocumentAIService._parse_date`. -/
def _parse_date (dateStr : Option String) : Option PDate :=
  match dateStr with
  | none => none
  | some s =>
    if s = "" then none
    else dateFormats.findSome? (fun fmt => strptimeDate fmt (pyStrip s).toList)

/-- Characters kept by `re.sub(r'[^\d.,\-]', '', ...)`. -/
def isAmountChar (c : Char) : Bool := c.isDigit || c = '.' || c = ',' || c = '-'

/-- Decimal-literal parse into (mantissa, number of fraction digits):
an optional single leading minus sign, then digits with at most one
dot and at least one digit — exactly the strings (over the post-clean
alphabet of digits, dots and minus signs) that `decimal.Decimal` and
`float` accept. -/
def decParseParts (l : List Char) : Option (Int × Nat) :=
  let core := fun (body : List Char) (sign : Int) =>
    let intPart := body.takeWhile Char.isDigit
    let rest := body.drop intPart.length
    match rest with
    | [] =>
      if intPart.isEmpty then none
      else some (sign * (intPart.foldl (fun a c => a * 10 + (c.toNat - '0'.toNat)) 0 : Int), 0)
    | '.' :: frac =>
      if frac.all Char.isDigit && !(intPart.isEmpty && frac.isEmpty) then
        some (sign * ((intPart ++ frac).foldl (fun a c => a * 10 + (c.toNat - '0'.toNat)) 0 : Int),
          frac.length)
      else none
    | _ => none
  match l with
  | '-' :: body => core body (-1)
  | body => core body 1

def decParse (l : List Char) : Option ℚ :=
  (decParseParts l).map (fun mk_ => (mk_.1 : ℚ) / 10 ^ mk_.2)

/-- The cleaning pipeline shared by `_parse_amount` and `_parse_float`:
strip every character that is not a digit, dot, comma or minus, then
remove the commas. -/
def amountClean (s : String) : List Char :=
  (s.toList.filter isAmountChar).filter (fun c => c ≠ ',')

/-- `BOLDocumentAIService._parse_amount` (`Decimal` as exact `ℚ`). -/
def _parse_amount (amountStr : Option String) : Option ℚ :=
  match amountStr with
  | none => none
  | some s => if s = "" then none else decParse (amountClean s)

/-- `BOLDocumentAIService._parse_float` (Python `float(...)` accepts the
same cleaned strings; its value is modelled exactly, as a rational). -/
def _parse_float (valueStr : Option String) : Option ℚ :=
  match valueStr with
  | none => none
  | some s => if s = "" then none else decParse (amountClean s)

/-- Integer-literal parse: optional single minus, then at least one digit. -/
def intParse (l : List Char) : Option Int :=
  let core := fun (body : List Char) (sign : Int) =>
    if !body.isEmpty && body.all Char.isDigit then
      some (sign * (body.foldl (fun a c => a * 10 + (c.toNat - '0'.toNat)) 0 : Int))
    else none
  match l with
  | '-' :: body => core body (-1)
  | body => core body 1

/-- `BOLDocumentAIService._parse_int` (cleanup keeps digits and minus only). -/
def _parse_int (valueStr : Option String) : Option Int :=
  match valueStr with
  | none => none
  | some s =>
    if s = "" then none
    else intParse (s.toList.filter (fun c => c.isDigit || c = '-'))

/-! ## Data model (`src/app/models/bol.py`) -/

/-- `ShipmentItem` (pydantic): `description` is the only required field.
Note that pydantic's `str` accepts the empty string. -/
structure ShipmentItem where
  description : String
  quantity : Option ℚ := none
  weight : Option ℚ := none
  weight_unit : Option String := none
  dimensions : Option String := none
  packaging_type : Option String := none
  hazmat_class : Option String := none
  nmfc_code : Option String := none
  freight_class : Option String := none
  deriving Repr, DecidableEq

/-- `Address` (pydantic): all fields optional. -/
structure Address where
  name : Option String := none
  street : Option String := none
  city : Option String := none
  state : Option String := none
  postal_code : Option String := none
  country : Option String := none
  contact_name : Option String := none
  contact_phone : Option String := none
  deriving Repr, DecidableEq

/-- The provenance entries the engine writes into `BOLData.metadata`
(the `processing_time` timestamp is impure and omitted). -/
structure BOLMetadata where
  page_count : Option Nat := none
  page_number : Option Nat := none
  total_pages : Option Nat := none
  deriving Repr, DecidableEq

/-- `BOLData` (pydantic); defaults as in the model declaration. -/
structure BOLData where
  bol_id : String
  bol_number : Option String := none
  pro_number : Option String := none
  scac_code : Option String := none
  ship_date : Option PDate := none
  delivery_date : Option PDate := none
  shipper : Option Address := none
  consignee : Option Address := none
  bill_to : Option Address := none
  carrier_name : Option String := none
  driver_name : Option String := none
  truck_number : Option String := none
  trailer_number : Option String := none
  seal_number : Option String := none
  origin_terminal : Option String := none
  destination_terminal : Option String := none
  freight_charge_terms : Option String := none
  payment_terms : Option String := none
  total_weight : Option ℚ := none
  weight_unit : Option String := some "LBS"
  total_pieces : Option Int := none
  total_pallets : Option Int := none
  shipment_items : List ShipmentItem := []
  special_instructions : Option String := none
  delivery_instructions : Option String := none
  freight_charges : Option ℚ := none
  accessorial_charges : Option ℚ := none
  total_charges : Option ℚ := none
  shipment_type : Option String := none
  service_type : Option String := none
  confidence_scores : List (String × ℚ) := []
  raw_text : Option String := none
  metadata : BOLMetadata := {}
  deriving Repr, DecidableEq

/-! ## Association-list model of the Python `dict`s used by the engine -/

/-- `m[k] = v`: overwrite in place when the key exists, else append. -/
def pmSet {α : Type} (m : List (String × α)) (k : String) (v : α) : List (String × α) :=
  if m.any (fun p => p.1 == k) then m.map (fun p => if p.1 == k then (k, v) else p)
  else m ++ [(k, v)]

/-- Raw lookup: the value at the first entry whose key is `k`, if any. -/
def pmFind {α : Type} : List (String × α) → String → Option α
  | [], _ => none
  | p :: t, k => if p.1 == k then some p.2 else pmFind t k

/-! ## The entity map (Python `dict` built during extraction)

Values are `Option String`: the structured-entity stage can store a
Python `None` under a key (see `_extract_entities`). -/

abbrev EntityMap := List (String × Option String)

def emHasKey (m : EntityMap) (k : String) : Bool := m.any (fun p => p.1 == k)

/-- Raw lookup: `some v` when the key is present holding `v`. -/
def emLookup (m : EntityMap) (k : String) : Option (Option String) := pmFind m k

/-- Python `m.get(k)`: missing key and stored `None` both give `none`. -/
def emGet (m : EntityMap) (k : String) : Option String := (emLookup m k).bind id

/-- `m.get(k)` post-composed with Python truthiness (`""` discarded):
the form `if k in m and m[k]` used by the address assembler. -/
def emGetT (m : EntityMap) (k : String) : Option String :=
  match emGet m k with
  | some s => if s = "" then none else some s
  | none => none

/-- Python `m[k] = v`: overwrite in place, else append. -/
def emSet (m : EntityMap) (k : String) (v : Option String) : EntityMap := pmSet m k v

/-- Python `m₁.update(m₂)`. -/
def emUpdate (m₁ m₂ : EntityMap) : EntityMap :=
  m₂.foldl (fun acc p => emSet acc p.1 p.2) m₁

/-! ## The analysis-service document (`documentai.Document`)

Only the parts the engine reads are modelled.  Proto scalar defaults
(`0`, `""`) stand for absent values exactly as the source's truthiness
checks treat them; optional sub-messages are `Option`. -/

structure TextSegment where
  start_index : Nat := 0
  end_index : Nat := 0
  deriving Repr, DecidableEq

structure TextAnchor where
  text_segments : List TextSegment := []
  content : String := ""
  deriving Repr, DecidableEq

/-- A form field's name or value part (`field.field_name` / `field.field_value`). -/
structure FieldPart where
  text_anchor : Option TextAnchor := none
  deriving Repr, DecidableEq

structure FormField where
  field_name : Option FieldPart := none
  field_value : Option FieldPart := none
  deriving Repr, DecidableEq

/-- A layout (of a page or of a table cell): only its text anchor is read. -/
structure LayoutInfo where
  text_anchor : Option TextAnchor := none
  deriving Repr, DecidableEq

structure TableCell where
  layout : Option LayoutInfo := none
  deriving Repr, DecidableEq

structure TableRow where
  cells : List TableCell := []
  deriving Repr, DecidableEq

structure DAITable where
  header_rows : List TableRow := []
  body_rows : List TableRow := []
  deriving Repr, DecidableEq

structure Page where
  layout : Option LayoutInfo := none
  form_fields : List FormField := []
  tables : List DAITable := []
  deriving Repr, DecidableEq

structure EntProp where
  type_ : String
  mention_text : String := ""
  text_anchor : Option TextAnchor := none
  deriving Repr, DecidableEq

/-- A detected entity; `confidence` is a proto float (default `0.0`),
modelled as an exact rational. -/
structure DocEntity where
  type_ : String
  mention_text : String := ""
  text_anchor : Option TextAnchor := none
  properties : List EntProp := []
  confidence : ℚ := 0
  deriving Repr, DecidableEq

structure DAIDocument where
  text : String := ""
  pages : List Page := []
  entities : List DocEntity := []
  deriving Repr, DecidableEq

/-! ## Text-anchor resolution and the field-synonym mapper -/

/-- `BOLDocumentAIService._get_text_from_anchor`.  A proto `start_index`
of `0` is falsy and defaults to `0`; an `end_index` of `0` is falsy and
defaults to the length of the full text. -/
def _get_text_from_anchor (fullText : String) (ta : TextAnchor) : String :=
  if ta.text_segments.isEmpty then ""
  else
    pyStrip (String.mk (ta.text_segments.foldl
      (fun acc seg =>
        acc ++ pySlice fullText.toList seg.start_index
          (if seg.end_index = 0 then fullText.toList.length else seg.end_index)) []))

/-- `BOLDocumentAIService._map_form_field_to_entity`. -/
def _map_form_field_to_entity (fieldName : String) : Option String :=
  let f := pyStrip (pyLower fieldName)
  if pyIn "bol #" f || pyIn "bol#" f || pyIn "bill of lading" f then some "bol_number"
  else if pyIn "pro #" f || pyIn "pro#" f || pyIn "pro number" f then some "pro_number"
  else if pyIn "carrier" f && pyIn "name" f then some "carrier_name"
  else if pyIn "shipper" f then
    if pyIn "name" f then some "shipper_name"
    else if pyIn "address" f then some "shipper_address"
    else some "shipper"
  else if pyIn "consignee" f then
    if pyIn "name" f then some "consignee_name"
    else if pyIn "address" f then some "consignee_address"
    else some "consignee"
  else if pyIn "date" f then
    if pyIn "ship" f || pyIn "pickup" f then some "ship_date"
    else if pyIn "delivery" f then some "delivery_date"
    else some "date"
  else if pyIn "weight" f then
    if pyIn "total" f then some "total_weight"
    else some "weight"
  else if pyIn "freight charge" f then some "freight_charge_terms"
  else none

/-! ## The raw-text regex battery (`_extract_from_text`) -/

/-- First pattern in the list that matches (`for pattern: ... break`). -/
def firstMatch (ic : Bool) (pats : List RE) (s : List Char) : Option RMatch :=
  pats.findSome? (fun p => reSearch ic p s)

/-- First pattern in the list that matches, with its index in the list. -/
def firstMatchIdx (ic : Bool) (pats : List RE) (s : List Char) : Option (Nat × RMatch) :=
  pats.enum.findSome? (fun p => (reSearch ic p.2 s).map (fun m => (p.1, m)))

/-- `BOLDocumentAIService._extract_from_text`: the ordered battery of
raw-text extraction rules.  Each `let` block mirrors one statement
group of the source, in source order. -/
def _extract_from_text (text : String) : EntityMap :=
  let s := text.toList
  let e : EntityMap := []
  -- BOL number (two alternatives, first match wins)
  let e := match firstMatch false [bolPat1, bolPat2] s with
    | some m => emSet e "bol_number" (some (grpD m 1))
    | none => e
  -- PRO number (kept only when longer than three digits; otherwise the
  -- loop falls through to the next pattern)
  let e := match [proPat1, proPat2].findSome? (fun p =>
      (reSearch false p s).bind (fun m => if (grpD m 1).length > 3 then some m else none)) with
    | some m => emSet e "pro_number" (some (grpD m 1))
    | none => e
  -- carrier name (match, then cleanup; kept only when the cleanup leaves
  -- a non-empty text without 'PRO'/'DATE', else the loop falls through)
  let e := match [carrierPat1, carrierPat2].findSome? (fun p =>
      (reSearch false p s).bind (fun m =>
        let ct := pyStrip (grpD m 1)
        let ct := pyStrip (reSubEmpty false carrierCleanPat ct)
        if ct ≠ "" && !pyIn "PRO" ct && !pyIn "DATE" ct then some ct else none)) with
    | some ct => emSet e "carrier_name" (some ct)
    | none => e
  -- ship date
  let e := match firstMatch false [datePat1, datePat2, datePat3] s with
    | some m => emSet e "ship_date" (some (grpD m 1))
    | none => e
  -- shipper: ORIGIN: section, else SHIPPER INFORMATION fallback
  let e := match reSearch false originPat s with
    | some m =>
      let e := emSet e "shipper_name" (some (pyStrip (grpD m 1)))
      let e := emSet e "shipper_street" (some (pyStrip (grpD m 2)))
      let csz := pyStrip (grpD m 3)
      match reMatchAt false cityStateZipPat csz.toList 0 with
      | some cm =>
        let e := emSet e "shipper_city" (some (grpD cm 1))
        let e := emSet e "shipper_state" (some (grpD cm 2))
        emSet e "shipper_zip" (some (grpD cm 3))
      | none => e
    | none =>
      match reSearch false shipperFallbackPat s with
      | some m =>
        let nm := pyStrip (grpD m 1)
        let nm := pyStrip (reSubEmpty false consInfoCleanPat nm)
        let nm := pyStrip (reSubEmpty false coCleanPat nm)
        if nm ≠ "" && !pyIn "ORIGIN:" nm then emSet e "shipper_name" (some nm) else e
      | none => e
  -- shipper contact
  let e := match reSearch false shipperContactPat s with
    | some m =>
      let e := emSet e "shipper_contact_name" (some (grpD m 1))
      emSet e "shipper_contact_phone" (some (pyReplaceChar '.' '-' (grpD m 2)))
    | none => e
  -- consignee name (first matching pattern ends the loop; the 'Scheels'
  -- pattern is the only one with two groups and takes the first branch)
  let e := match firstMatchIdx false [consigneePatA, consigneePatB, consigneePatC] s with
    | some (0, m) => emSet e "consignee_name" (some (pyStrip (grpD m 2)))
    | some (_, m) =>
      let ct := pyStrip (grpD m 1)
      let ct := reSubEmpty false numDashCleanPat ct
      if ct ≠ "" && !pyIn "DOCK TYPE" ct then emSet e "consignee_name" (some ct) else e
    | none => e
  -- consignee address block
  let e := match reSearch false consigneeBlockPat s with
    | some bm =>
      let ctext := grpD bm 1
      match reSearch false consigneeAddrPat ctext.toList with
      | some am =>
        let street := pyStrip (grpD am 1)
        let street := match reSearch false suitePat ctext.toList with
          | some sm =>
            if pyIn (grpD sm 1) street then street ++ ", " ++ pyStrip (grpD sm 2) else street
          | none => street
        let e := emSet e "consignee_street" (some street)
        let csz := pyStrip (grpD am 2)
        match reMatchAt false cityStateZipPat csz.toList 0 with
        | some cm =>
          let e := emSet e "consignee_city" (some (grpD cm 1))
          let e := emSet e "consignee_state" (some (grpD cm 2))
          emSet e "consignee_zip" (some (grpD cm 3))
        | none => e
      | none => e
    | none => e
  -- consignee contact
  let e := match reSearch false consigneeContactPat s with
    | some m =>
      let e := emSet e "consignee_contact_name" (some "Shipping & Receiving")
      emSet e "consignee_contact_phone" (some (pyReplaceChar '.' '-' (grpD m 1)))
    | none => e
  -- freight charge terms
  let e := match reSearch true freightTermsPat s with
    | some m => emSet e "freight_charge_terms" (some (pyCapitalize (grpD m 1)))
    | none => e
  -- bill-to block
  let e := match reSearch false billToPat s with
    | some m =>
      let e := emSet e "bill_to_name" (some (pyStrip (grpD m 1)))
      let e := emSet e "bill_to_street" (some (pyStrip (grpD m 2)))
      let csz := pyStrip (grpD m 3)
      match reMatchAt false cityStateZipPat csz.toList 0 with
      | some cm =>
        let e := emSet e "bill_to_city" (some (grpD cm 1))
        let e := emSet e "bill_to_state" (some (grpD cm 2))
        emSet e "bill_to_zip" (some (grpD cm 3))
      | none => e
    | none => e
  -- total weight
  let e := match firstMatch true [weightPat1, weightPat2, weightPat3] s with
    | some m => emSet e "total_weight" (some (grpD m 1))
    | none => e
  -- pallets
  let e := match firstMatch true [palletPat1, palletPat2] s with
    | some m => emSet e "total_pallets" (some (grpD m 1))
    | none => e
  -- special instructions
  let e := match reSearch false specialPat s with
    | some m => emSet e "special_instructions" (some (pyStrip (grpD m 1)))
    | none => e
  -- auxiliary identifiers
  let e := match reSearch false billingIdPat s with
    | some m => emSet e "billing_id" (some (grpD m 1))
    | none => e
  let e := match reSearch false customerPoPat s with
    | some m => emSet e "customer_po" (some (grpD m 1))
    | none => e
  let e := match reSearch false customIdPat s with
    | some m => emSet e "custom_id" (some (grpD m 1))
    | none => e
  e

/-! ## Address assembler (`_extract_address_from_entities`, `_parse_address_block`) -/

/-- The `address_fields` dict: one fixed slot per address component. -/
structure AddrFields where
  name : Option String := none
  street : Option String := none
  city : Option String := none
  state : Option String := none
  postal_code : Option String := none
  country : Option String := none
  contact_name : Option String := none
  contact_phone : Option String := none
  deriving Repr, DecidableEq

/-- First candidate key that is present with a truthy value
(`if key in entities and entities[key]: ...; break`). -/
def firstKeyVal (m : EntityMap) (keys : List String) : Option String :=
  keys.findSome? (fun k => emGetT m k)

/-- The sub-dict `_parse_address_block` returns (absent keys are `none`). -/
structure AddrParts where
  name : Option String := none
  street : Option String := none
  city : Option String := none
  state : Option String := none
  postal_code : Option String := none
  deriving Repr, DecidableEq

/-- `BOLDocumentAIService._parse_address_block`. -/
def _parse_address_block (addressText : String) : AddrParts :=
  let lines := (pyStrip addressText).splitOn "\n"
  let p : AddrParts := {}
  let p := match lines.head? with
    | some l0 => { p with name := some (pyStrip l0) }
    | none => p
  let p := if lines.length > 1 then { p with street := some (pyStrip (lines.getD 1 "")) } else p
  if lines.length > 2 then
    let lastLine := pyStrip (lines.getLastD "")
    match reMatchAt false addrBlockLastLinePat lastLine.toList 0 with
    | some m =>
      { p with
        city := some (pyStrip (grpD m 1)), state := some (grpD m 2),
        postal_code := some (grpD m 3) }
    | none => { p with city := some lastLine }
  else p

/-- `address_fields.update(address_parts)`: keys present in the parts
dict overwrite the corresponding slots. -/
def afUpdate (af : AddrFields) (p : AddrParts) : AddrFields :=
  { af with
    name := match p.name with | some v => some v | none => af.name
    street := match p.street with | some v => some v | none => af.street
    city := match p.city with | some v => some v | none => af.city
    state := match p.state with | some v => some v | none => af.state
    postal_code := match p.postal_code with | some v => some v | none => af.postal_code }

/-- `any(address_fields.values())`. -/
def afAny (af : AddrFields) : Bool :=
  pyTruthyStr af.name || pyTruthyStr af.street || pyTruthyStr af.city || pyTruthyStr af.state ||
    pyTruthyStr af.postal_code || pyTruthyStr af.country || pyTruthyStr af.contact_name ||
    pyTruthyStr af.contact_phone

/-- `Address(**{k: v for k, v in address_fields.items() if v})`: falsy
components are left unset. -/
def afNorm (o : Option String) : Option String := if pyTruthyStr o then o else none

/-- The direct field mapping of `_extract_address_from_entities` (first
present truthy candidate key per component). -/
def afDirectFields (entities : EntityMap) (pfx : String) : AddrFields :=
  { name := firstKeyVal entities [pfx ++ "_name", pfx],
    street := firstKeyVal entities [pfx ++ "_street", pfx ++ "_address", pfx ++ "_addr"],
    city := firstKeyVal entities [pfx ++ "_city"],
    state := firstKeyVal entities [pfx ++ "_state"],
    postal_code := firstKeyVal entities [pfx ++ "_zip", pfx ++ "_postal_code", pfx ++ "_postal"],
    contact_name := firstKeyVal entities [pfx ++ "_contact_name", pfx ++ "_contact"],
    contact_phone := firstKeyVal entities [pfx ++ "_contact_phone", pfx ++ "_phone"] }

/-- `address_fields['country'] = entities.get(f"{prefix}_country") or "USA"`
(the mapping above never sets `'country'`, so the guarding
`if 'country' not in address_fields` is always taken). -/
def afWithCountry (entities : EntityMap) (pfx : String) (af : AddrFields) : AddrFields :=
  { af with country := pyOr (emGet entities (pfx ++ "_country")) (some "USA") }

/-- The complete-address-block step. -/
def afBlockStage (entities : EntityMap) (pfx : String) (af : AddrFields) : AddrFields :=
  if pyTruthyStr (emGet entities (pfx ++ "_address_block")) then
    afUpdate af (_parse_address_block ((emGet entities (pfx ++ "_address_block")).getD ""))
  else af

/-- The special handling for `bill_to` addresses. -/
def afBillToStage (entities : EntityMap) (pfx : String) (af : AddrFields) : AddrFields :=
  if pfx = "bill_to" && !pyTruthyStr af.name then
    let af := if pyTruthyStr (emGet entities "bill_to_name") then
        { af with name := emGet entities "bill_to_name" } else af
    let af := if pyTruthyStr (emGet entities "bill_to_street") then
        { af with street := emGet entities "bill_to_street" } else af
    let af := if pyTruthyStr (emGet entities "bill_to_city") then
        { af with city := emGet entities "bill_to_city" } else af
    let af := if pyTruthyStr (emGet entities "bill_to_state") then
        { af with state := emGet entities "bill_to_state" } else af
    if pyTruthyStr (emGet entities "bill_to_zip") then
      { af with postal_code := emGet entities "bill_to_zip" } else af
  else af

/-- The special handling for consignee names from text extraction. -/
def afConsigneeStage (entities : EntityMap) (pfx : String) (af : AddrFields) : AddrFields :=
  if pfx = "consignee" && !pyTruthyStr af.name &&
      pyTruthyStr (emGet entities "consignee_name") then
    let ctext := (emGet entities "consignee_name").getD ""
    if pyIn " - " ctext then
      match pySplitOnceAfter " - " ctext with
      | some rest => { af with name := some (pyStrip rest) }
      | none => af
    else { af with name := some (pyStrip ctext) }
  else af

/-- `Address(**{k: v for k, v in address_fields.items() if v})`. -/
def afToAddress (af : AddrFields) : Address :=
  { name := afNorm af.name, street := afNorm af.street, city := afNorm af.city,
    state := afNorm af.state, postal_code := afNorm af.postal_code,
    country := afNorm af.country, contact_name := afNorm af.contact_name,
    contact_phone := afNorm af.contact_phone }

/-- `BOLDocumentAIService._extract_address_from_entities`. -/
def _extract_address_from_entities (entities : EntityMap) (pfx : String) : Option Address :=
  let af := afConsigneeStage entities pfx
    (afBillToStage entities pfx
      (afBlockStage entities pfx
        (afWithCountry entities pfx (afDirectFields entities pfx))))
  if afAny af then some (afToAddress af) else none

/-! ## Line-item extraction -/

/-- Cell text: `cell.layout.text_anchor.content if cell.layout and cell.layout.text_anchor else ""`. -/
def cellContent (cell : TableCell) : String :=
  match cell.layout with
  | some l => match l.text_anchor with
    | some ta => ta.content
    | none => ""
  | none => ""

/-- Numeral value of a digits-only string (`int` of a `\d+` group). -/
def digitsToNat (s : String) : Nat :=
  s.toList.foldl (fun a c => a * 10 + (c.toNat - '0'.toNat)) 0

/-- `BOLDocumentAIService._parse_table_row_to_shipment_item`; `row_data`
maps lower-cased headers to stripped cell texts. -/
def _parse_table_row_to_shipment_item (rd : EntityMap) : Option ShipmentItem :=
  let description := pyOr (emGet rd "description")
    (pyOr (emGet rd "commodity") (pyOr (emGet rd "product") (emGet rd "item")))
  if !pyTruthyStr description then none
  else
    some
      { description := description.getD "",
        quantity := _parse_float (pyOr (emGet rd "quantity") (pyOr (emGet rd "qty") (emGet rd "pieces"))),
        weight := _parse_float (pyOr (emGet rd "weight") (emGet rd "wt")),
        weight_unit := pyOr (emGet rd "unit") (some "LBS"),
        dimensions := pyOr (emGet rd "dimensions") (emGet rd "dims"),
        packaging_type := pyOr (emGet rd "package type") (emGet rd "pkg type"),
        hazmat_class := pyOr (emGet rd "hazmat") (emGet rd "hm"),
        nmfc_code := emGet rd "nmfc",
        freight_class := pyOr (emGet rd "class") (emGet rd "freight class") }

/-- `BOLDocumentAIService._extract_items_from_table`. -/
def _extract_items_from_table (table : DAITable) : List ShipmentItem :=
  if table.header_rows.isEmpty || table.body_rows.isEmpty then []
  else
    let headers := ((table.header_rows.getD 0 {}).cells).map
      (fun cell => pyStrip (pyLower (cellContent cell)))
    table.body_rows.foldl (fun acc row =>
      let rd := (row.cells.enum.foldl (fun (rd : EntityMap) ic =>
        if ic.1 < headers.length then emSet rd (headers.getD ic.1 "") (some (pyStrip (cellContent ic.2)))
        else rd) [])
      if !rd.isEmpty then
        match _parse_table_row_to_shipment_item rd with
        | some item => acc ++ [item]
        | none => acc
      else acc) []

/-- The final raw-text fallback of `_extract_items_from_page`:
`re.findall(r'NMFC\s*#([\d-]+)[,\s]+([^,\n]+)', page_text)`, one item
per match. -/
def nmfcFindallItems (s : List Char) : List ShipmentItem :=
  (reFindIter false nmfcPat s).map (fun m =>
    { description := pyStrip (grpD m 2), nmfc_code := some (pyStrip (grpD m 1)) })

/-- `BOLDocumentAIService._extract_items_from_page`. -/
def _extract_items_from_page (page : Page) (pageText : String) : List ShipmentItem :=
  let items := page.tables.foldl (fun acc t => acc ++ _extract_items_from_table t) []
  if !items.isEmpty then items
  else
    let s := pageText.toList
    let items :=
      match reSearch true itemSectionPat s with
      | some secM =>
        let itemText := (grp0 s secM).toList
        -- item_data, one regex per field
        let nm := reSearch false nmfcPat itemText
        let nmfc_code := nm.map (fun m => grpD m 1)
        let description := nm.map (fun m =>
          pyStrip (reSubEmpty false pcfCleanPat (pyStrip (grpD m 2))))
        let qm := reSearch true qtyPat itemText
        let quantity : Option ℚ := qm.map (fun m => (digitsToNat (grpD m 1) : ℚ))
        let packaging_type := qm.map (fun m => pyRstripChar 's' (grpD m 2))
        let wm := reSearch true itemWeightPat itemText
        let weight : Option ℚ := wm.map (fun m => (digitsToNat (grpD m 1) : ℚ))
        let weight_unit := wm.map (fun _ => "LBS")
        let cm := reSearch false classPat itemText
        let freight_class := cm.map (fun m => grpD m 1)
        let dm := reSearch false dimPat itemText
        let dimensions := dm.map (fun m => grpD m 1 ++ "x" ++ grpD m 2 ++ "x" ++ grpD m 3)
        if pyTruthyStr description then
          [{ description := description.getD "", quantity, weight, weight_unit, packaging_type,
              nmfc_code, freight_class, dimensions }]
        else if pyTruthyStr nmfc_code then
          [{ description := "Item with NMFC #" ++ nmfc_code.getD "", quantity, weight,
              weight_unit, packaging_type, nmfc_code, freight_class, dimensions }]
        else []
      | none => []
    if !items.isEmpty then items else nmfcFindallItems s

/-! ## Structured-entity line items (`_extract_shipment_items`) -/

/-- `s.lower().replace(" ", "_")` used to canonicalise entity type tags. -/
def canonTag (s : String) : String :=
  String.mk ((pyLower s).toList.map (fun c => if c = ' ' then '_' else c))

/-- The `item_data` dict of `_extract_shipment_items`: properties named
weight/quantity/pieces are parsed to floats, all others kept as strings. -/
structure ItemData where
  strs : EntityMap := []
  nums : List (String × Option ℚ) := []
  deriving Repr, DecidableEq

def numSet (m : List (String × Option ℚ)) (k : String) (v : Option ℚ) : List (String × Option ℚ) :=
  pmSet m k v

def numGet (m : List (String × Option ℚ)) (k : String) : Option ℚ :=
  (pmFind m k).bind id

/-- `BOLDocumentAIService._extract_shipment_items` (structured entities
first, then every table of every page when no entity qualified). -/
def _extract_shipment_items (doc : DAIDocument) : List ShipmentItem :=
  let items := doc.entities.foldl (fun acc ent =>
    if [("line_item" : String), "shipment_item", "cargo_item"].contains (pyLower ent.type_) then
      let idata := ent.properties.foldl (fun (idata : ItemData) prop =>
        let ptype := canonTag prop.type_
        let value : Option String :=
          pyOr (some prop.mention_text) (prop.text_anchor.map (fun ta => ta.content))
        if ptype = "weight" || ptype = "quantity" || ptype = "pieces" then
          { idata with nums := numSet idata.nums ptype (_parse_float value) }
        else
          { idata with strs := emSet idata.strs ptype value }) {}
      if pyTruthyStr (emGet idata.strs "description") || pyTruthyStr (emGet idata.strs "commodity") then
        let desc :=
          (if pyTruthyStr (emGet idata.strs "description") then emGet idata.strs "description"
           else emGet idata.strs "commodity").getD ""
        acc ++
          [{ description := desc,
             quantity := numGet idata.nums "quantity",
             weight := numGet idata.nums "weight",
             weight_unit := emGet idata.strs "weight_unit",
             dimensions := emGet idata.strs "dimensions",
             packaging_type := pyOr (emGet idata.strs "packaging_type") (emGet idata.strs "package_type"),
             hazmat_class := pyOr (emGet idata.strs "hazmat_class") (emGet idata.strs "hazmat"),
             nmfc_code := pyOr (emGet idata.strs "nmfc_code") (emGet idata.strs "nmfc"),
             freight_class := pyOr (emGet idata.strs "freight_class") (emGet idata.strs "class") }]
      else acc
    else acc) []
  if items.isEmpty && !doc.pages.isEmpty then
    doc.pages.foldl (fun acc page =>
      page.tables.foldl (fun acc2 t => acc2 ++ _extract_items_from_table t) acc) []
  else items

/-! ## The entity-extraction cascade (`_extract_entities`) -/

/-- One iteration of the form-field loops of `_extract_entities` and
`_extract_entities_from_page`. -/
def formFieldStep (fullText : String) (acc : EntityMap) (field : FormField) : EntityMap :=
  let fieldName := match field.field_name with
    | some fp => match fp.text_anchor with
      | some ta => _get_text_from_anchor fullText ta
      | none => ""
    | none => ""
  let fieldValue := match field.field_value with
    | some fp => match fp.text_anchor with
      | some ta => _get_text_from_anchor fullText ta
      | none => ""
    | none => ""
  if fieldName ≠ "" then
    match _map_form_field_to_entity fieldName with
    | some key => emSet acc key (some (pyStrip fieldValue))
    | none => acc
  else acc

/-- The form-field stage of `_extract_entities` (all pages, one shared dict). -/
def formFieldEntities (doc : DAIDocument) : EntityMap :=
  doc.pages.foldl (fun acc page =>
    if !page.form_fields.isEmpty then page.form_fields.foldl (formFieldStep doc.text) acc
    else acc) []

/-- The structured-entity stage of `_extract_entities`. -/
def entityStageEntities (doc : DAIDocument) : EntityMap :=
  doc.entities.foldl (fun acc ent =>
    let etype := canonTag ent.type_
    let acc := if ent.mention_text ≠ "" then emSet acc etype (some ent.mention_text)
      else emSet acc etype (ent.text_anchor.map (fun ta => ta.content))
    ent.properties.foldl (fun acc2 prop =>
      let ptype := etype ++ "_" ++ canonTag prop.type_
      if prop.mention_text ≠ "" then emSet acc2 ptype (some prop.mention_text)
      else
        match prop.text_anchor with
        | some ta => emSet acc2 ptype (some ta.content)
        | none => acc2) acc) []

/-- `BOLDocumentAIService._extract_entities`: form fields, then (only if
nothing was found) structured entities, then (only if still nothing)
the raw-text battery. -/
def _extract_entities (doc : DAIDocument) : EntityMap :=
  let e1 := formFieldEntities doc
  let e2 := if e1.isEmpty && !doc.entities.isEmpty then entityStageEntities doc else e1
  if e2.isEmpty && doc.text ≠ "" then _extract_from_text doc.text else e2

/-- `BOLDocumentAIService._get_page_text`. -/
def _get_page_text (doc : DAIDocument) (page : Page) : String :=
  match page.layout with
  | none => ""
  | some l =>
    match l.text_anchor with
    | none => ""
    | some ta =>
      String.mk (ta.text_segments.foldl
        (fun acc seg =>
          acc ++ pySlice doc.text.toList seg.start_index
            (if seg.end_index = 0 then doc.text.toList.length else seg.end_index)) [])

/-- `BOLDocumentAIService._extract_entities_from_page`. -/
def _extract_entities_from_page (page : Page) (fullText : String) : EntityMap :=
  if page.form_fields.isEmpty then []
  else page.form_fields.foldl (formFieldStep fullText) []

/-! ## Confidence scorer (`_calculate_confidence_scores`) -/

def qmSet (m : List (String × ℚ)) (k : String) (v : ℚ) : List (String × ℚ) := pmSet m k v

def qmLookup (m : List (String × ℚ)) (k : String) : Option ℚ := pmFind m k

/-- Python `m.get(k, d)`. -/
def qmGetD (m : List (String × ℚ)) (k : String) (d : ℚ) : ℚ :=
  match qmLookup m k with
  | some v => v
  | none => d

/-- The per-entity score map (an entity contributes only when its
confidence is truthy, i.e. non-zero). -/
def entityScores (doc : DAIDocument) : List (String × ℚ) :=
  doc.entities.foldl (fun acc ent =>
    if ent.confidence ≠ 0 then qmSet acc (canonTag ent.type_) ent.confidence else acc) []

/-- `BOLDocumentAIService._calculate_confidence_scores`: the "overall"
entry is the mean of the entries present, or `0.0` when there are none. -/
def _calculate_confidence_scores (doc : DAIDocument) : List (String × ℚ) :=
  let scores := entityScores doc
  if !scores.isEmpty then
    qmSet scores "overall" (((scores.map (fun p => p.2)).sum) / scores.length)
  else qmSet scores "overall" 0

/-! ## Multi-record splitter (`_detect_multiple_bols`) -/

/-- One candidate section: the dict `{'text': ..., 'bol_number': ...}`
(single-section case, where no `'position'` key is written, is modelled
with `position := none`). -/
structure BOLSection where
  text : String
  bol_number : Option String := none
  position : Option Nat := none
  deriving Repr, DecidableEq

/-- The `(group(1), start())` list of `re.finditer(r'BOL\s*#\s*([\d]+)', text)`. -/
def bolMarkers (text : String) : List (String × Nat) :=
  (reFindIter false bolPat2 text.toList).map (fun m => (grpD m 1, m.start))

/-- `BOLDocumentAIService._detect_multiple_bols`. -/
def _detect_multiple_bols (text : String) : List BOLSection :=
  let s := text.toList
  let ms := bolMarkers text
  if ms.length ≤ 1 then
    [{ text := text, bol_number := ms.head?.map (fun p => p.1), position := none }]
  else
    ms.enum.map (fun im =>
      let endPos := match ms[im.1 + 1]? with
        | some nxt => nxt.2
        | none => s.length
      { text := String.mk (pySlice s im.2.2 endPos), bol_number := some im.2.1,
        position := some im.2.2 })

/-! ## Record assembler (`extract_bol_data`) and per-page splitter
(`extract_multiple_bols`), as pure functions of the document. -/

/-- `BOLDocumentAIService.extract_bol_data` (the whole-document record). -/
def extract_bol_data (doc : DAIDocument) (bolId : String) : BOLData :=
  let entities := _extract_entities doc
  let shipment_items := _extract_shipment_items doc
  let confidence_scores := _calculate_confidence_scores doc
  { bol_id := bolId,
    bol_number := pyOr (emGet entities "bol_number") (emGet entities "bill_of_lading_number"),
    pro_number := pyOr (emGet entities "pro_number") (emGet entities "tracking_number"),
    scac_code := pyOr (emGet entities "scac_code") (emGet entities "carrier_code"),
    ship_date := _parse_date (pyOr (emGet entities "ship_date") (emGet entities "pickup_date")),
    delivery_date := _parse_date (pyOr (emGet entities "delivery_date") (emGet entities "expected_delivery")),
    shipper := _extract_address_from_entities entities "shipper",
    consignee := _extract_address_from_entities entities "consignee",
    bill_to := _extract_address_from_entities entities "bill_to",
    carrier_name := pyOr (emGet entities "carrier_name") (emGet entities "carrier"),
    driver_name := pyOr (emGet entities "driver_name") (emGet entities "driver"),
    truck_number := pyOr (emGet entities "truck_number") (emGet entities "tractor_number"),
    trailer_number := emGet entities "trailer_number",
    seal_number := pyOr (emGet entities "seal_number") (emGet entities "seal"),
    origin_terminal := pyOr (emGet entities "origin_terminal") (emGet entities "origin"),
    destination_terminal := pyOr (emGet entities "destination_terminal") (emGet entities "destination"),
    freight_charge_terms := pyOr (emGet entities "freight_charge_terms") (emGet entities "payment_terms"),
    payment_terms := emGet entities "payment_terms",
    total_weight := _parse_float (pyOr (emGet entities "total_weight") (emGet entities "weight")),
    weight_unit := (match emLookup entities "weight_unit" with
      | some v => v
      | none => some "LBS"),
    total_pieces := _parse_int (pyOr (emGet entities "total_pieces") (emGet entities "pieces")),
    total_pallets := _parse_int (pyOr (emGet entities "total_pallets") (emGet entities "pallets")),
    shipment_items := shipment_items,
    special_instructions := pyOr (emGet entities "special_instructions") (emGet entities "notes"),
    delivery_instructions := emGet entities "delivery_instructions",
    freight_charges := _parse_amount (emGet entities "freight_charges"),
    accessorial_charges := _parse_amount (emGet entities "accessorial_charges"),
    total_charges := _parse_amount (pyOr (emGet entities "total_charges") (emGet entities "total_amount")),
    shipment_type := pyOr (emGet entities "shipment_type") (emGet entities "service_type"),
    service_type := pyOr (emGet entities "service_type") (emGet entities "service_level"),
    confidence_scores := confidence_scores,
    raw_text := some doc.text,
    metadata := { page_count := some doc.pages.length } }

/-- `f"{page_num+1:03d}"`. -/
def pad3 (n : Nat) : String :=
  if n < 10 then "00" ++ toString n
  else if n < 100 then "0" ++ toString n
  else toString n

/-- The per-page entity map of `extract_multiple_bols`: raw-text
extraction from the page text, then (when the page has form fields)
`entities.update(page_entities)` with the page's form-field entities. -/
def pageMergedEntities (doc : DAIDocument) (page : Page) : EntityMap :=
  let entities := _extract_from_text (_get_page_text doc page)
  if !page.form_fields.isEmpty then emUpdate entities (_extract_entities_from_page page doc.text)
  else entities

/-- The per-page candidate record built in the loop of
`extract_multiple_bols` (constructor keywords not passed keep their
pydantic defaults; `confidence_scores` in particular stays empty). -/
def pageBOL (doc : DAIDocument) (docId : String) (pageNum : Nat) (page : Page) : BOLData :=
  let page_text := _get_page_text doc page
  let entities := pageMergedEntities doc page
  { bol_id := docId ++ "-" ++ pad3 (pageNum + 1),
    bol_number := emGet entities "bol_number",
    pro_number := emGet entities "pro_number",
    ship_date := _parse_date (emGet entities "ship_date"),
    shipper := _extract_address_from_entities entities "shipper",
    consignee := _extract_address_from_entities entities "consignee",
    carrier_name := emGet entities "carrier_name",
    freight_charge_terms := emGet entities "freight_charge_terms",
    total_weight := _parse_float (emGet entities "total_weight"),
    weight_unit := some "LBS",
    total_pallets := _parse_int (emGet entities "total_pallets"),
    shipment_items := _extract_items_from_page page page_text,
    raw_text := some page_text,
    metadata := { page_number := some (pageNum + 1), total_pages := some doc.pages.length } }

/-- The candidate list (one per page, in page order). -/
def allPageCandidates (doc : DAIDocument) (docId : String) : List BOLData :=
  doc.pages.enum.map (fun ip => pageBOL doc docId ip.1 ip.2)

/-- The acceptance test of the loop: `bol_data.bol_number or
bol_data.shipper or bol_data.consignee` (a present `Address` object is
always truthy; a present but empty string `bol_number` is falsy). -/
def acceptBOL (b : BOLData) : Bool :=
  pyTruthyStr b.bol_number || b.shipper.isSome || b.consignee.isSome

def acceptedCandidates (doc : DAIDocument) (docId : String) : List BOLData :=
  (allPageCandidates doc docId).filter acceptBOL

/-- `BOLDocumentAIService.extract_multiple_bols`: no pages → single
whole-document record; otherwise the accepted per-page candidates,
falling back to a single whole-document record when none is accepted. -/
def extract_multiple_bols (doc : DAIDocument) (docId : String) : List BOLData :=
  if doc.pages.isEmpty then [extract_bol_data doc docId]
  else if (acceptedCandidates doc docId).isEmpty then [extract_bol_data doc docId]
  else acceptedCandidates doc docId

/-! ## Validation (`BOLParser.validate_bol_data`) -/

/-- `BOLParser.validate_bol_data`: collects non-fatal warnings and
returns them (it never raises and never rejects the record). -/
def validate_bol_data (b : BOLData) : List String :=
  (if !pyTruthyStr b.bol_number then ["BOL number not found"] else []) ++
  (if b.shipper.isNone then ["Shipper information missing"] else []) ++
  (if b.consignee.isNone then ["Consignee information missing"] else []) ++
  (if b.shipment_items.isEmpty then ["No shipment items found"] else []) ++
  (if qmGetD b.confidence_scores "overall" 0 < 6 / 10 then ["Low overall confidence score"] else [])



/-! ## Lemmas about the dictionary model -/

def pmKeys {α : Type} (m : List (String × α)) : List String := m.map Prod.fst

lemma pmKeys_cons {α : Type} (p : String × α) (t : List (String × α)) :
    pmKeys (p :: t) = p.1 :: pmKeys t := rfl

lemma bfalse {b : Bool} (h : b = false) : ¬(b = true) := by simp [h]

lemma bool_eq_false {b : Bool} (h : ¬(b = true)) : b = false := by
  cases b
  · rfl
  · exact absurd rfl h

lemma pmFind_cons {α : Type} (p : String × α) (t : List (String × α)) (k : String) :
    pmFind (p :: t) k = if p.1 == k then some p.2 else pmFind t k := rfl

lemma pmFind_some_ne_nil {α : Type} {m : List (String × α)} {k : String} {v : α}
    (h : pmFind m k = some v) : m ≠ [] := by
  intro hnil
  subst hnil
  simp [pmFind] at h

lemma beq_symm_false {k k' : String} (hne : k' ≠ k) : ((k : String) == k') = false := by
  simp only [beq_eq_false_iff_ne, ne_eq]
  exact fun he => hne he.symm

lemma pmFind_map_replace_self {α : Type} (k : String) (v : α) :
    ∀ m : List (String × α), m.any (fun p => p.1 == k) = true →
      pmFind (m.map (fun p => if p.1 == k then (k, v) else p)) k = some v
  | [], h => by simp at h
  | a :: t, h => by
    by_cases ha : (a.1 == k) = true
    · rw [List.map_cons, if_pos ha, pmFind_cons,
        if_pos (by simp : (((k, v) : String × α).1 == k) = true)]
    · rw [List.any_cons, Bool.or_eq_true] at h
      rcases h with h | h
      · exact absurd h ha
      · rw [List.map_cons, if_neg ha, pmFind_cons, if_neg ha]
        exact pmFind_map_replace_self k v t h

lemma pmFind_append_single_self {α : Type} (k : String) (v : α) :
    ∀ m : List (String × α), m.any (fun p => p.1 == k) = false →
      pmFind (m ++ [(k, v)]) k = some v
  | [], _ => by simp [pmFind]
  | a :: t, h => by
    rw [List.any_cons, Bool.or_eq_false_iff] at h
    rw [List.cons_append, pmFind_cons, if_neg (bfalse h.1)]
    exact pmFind_append_single_self k v t h.2

lemma pmFind_set_self {α : Type} (m : List (String × α)) (k : String) (v : α) :
    pmFind (pmSet m k v) k = some v := by
  unfold pmSet
  by_cases h : m.any (fun p => p.1 == k) = true
  · rw [if_pos h]
    exact pmFind_map_replace_self k v m h
  · rw [if_neg h]
    exact pmFind_append_single_self k v m (bool_eq_false h)

lemma pmFind_map_replace_ne {α : Type} (k k' : String) (v : α) (hne : k' ≠ k) :
    ∀ m : List (String × α),
      pmFind (m.map (fun p => if p.1 == k then (k, v) else p)) k' = pmFind m k'
  | [] => rfl
  | a :: t => by
    by_cases ha : (a.1 == k) = true
    · have ha' : a.1 = k := by simpa using ha
      have h2 : (a.1 == k') = false := ha' ▸ beq_symm_false hne
      rw [List.map_cons, if_pos ha, pmFind_cons, if_neg (bfalse (beq_symm_false hne)),
        pmFind_cons, if_neg (bfalse h2)]
      exact pmFind_map_replace_ne k k' v hne t
    · rw [List.map_cons, if_neg ha, pmFind_cons, pmFind_cons]
      by_cases hk' : (a.1 == k') = true
      · rw [if_pos hk', if_pos hk']
      · rw [if_neg hk', if_neg hk']
        exact pmFind_map_replace_ne k k' v hne t

lemma pmFind_append_single_ne {α : Type} (k k' : String) (v : α) (hne : k' ≠ k) :
    ∀ m : List (String × α), pmFind (m ++ [(k, v)]) k' = pmFind m k'
  | [] => by
    rw [List.nil_append, pmFind_cons, if_neg (bfalse (beq_symm_false hne))]
  | a :: t => by
    rw [List.cons_append, pmFind_cons, pmFind_cons]
    by_cases hk' : (a.1 == k') = true
    · rw [if_pos hk', if_pos hk']
    · rw [if_neg hk', if_neg hk']
      exact pmFind_append_single_ne k k' v hne t

lemma pmFind_set_ne {α : Type} (m : List (String × α)) (k k' : String) (v : α) (hne : k' ≠ k) :
    pmFind (pmSet m k v) k' = pmFind m k' := by
  unfold pmSet
  by_cases h : m.any (fun p => p.1 == k) = true
  · rw [if_pos h]
    exact pmFind_map_replace_ne k k' v hne m
  · rw [if_neg h]
    exact pmFind_append_single_ne k k' v hne m

lemma mem_pmKeys_iff_any {α : Type} (m : List (String × α)) (k : String) :
    k ∈ pmKeys m ↔ m.any (fun p => p.1 == k) = true := by
  simp only [pmKeys, List.any_eq_true, List.mem_map, beq_iff_eq]

lemma pmKeys_set {α : Type} (m : List (String × α)) (k : String) (v : α) :
    pmKeys (pmSet m k v) = if m.any (fun p => p.1 == k) then pmKeys m else pmKeys m ++ [k] := by
  unfold pmSet pmKeys
  by_cases h : m.any (fun p => p.1 == k) = true
  · rw [if_pos h, if_pos h, List.map_map]
    apply List.map_congr_left
    intro p _
    by_cases hp : (p.1 == k) = true
    · have hp' : p.1 = k := by simpa using hp
      simp [Function.comp, hp']
    · have hp' : ¬(p.1 = k) := by simpa using hp
      simp [Function.comp, hp']
  · rw [if_neg h, if_neg h]
    simp

lemma pmKeysNodup_set {α : Type} (m : List (String × α)) (k : String) (v : α)
    (h : (pmKeys m).Nodup) : (pmKeys (pmSet m k v)).Nodup := by
  rw [pmKeys_set]
  by_cases ha : m.any (fun p => p.1 == k) = true
  · rw [if_pos ha]
    exact h
  · rw [if_neg ha]
    have hk : k ∉ pmKeys m := by
      rw [mem_pmKeys_iff_any]
      exact ha
    simp only [List.nodup_append, List.nodup_cons, List.not_mem_nil, not_false_iff,
      List.nodup_nil, and_true, true_and]
    refine ⟨h, ?_⟩
    intro x hx hmem
    simp only [List.mem_singleton] at hmem
    exact hk (hmem ▸ hx)

lemma emUpdate_cons (m₁ : EntityMap) (k : String) (v : Option String) (t : EntityMap) :
    emUpdate m₁ ((k, v) :: t) = emUpdate (emSet m₁ k v) t := rfl

lemma emUpdate_lookup_not_mem :
    ∀ (m₂ m₁ : EntityMap) (k : String), k ∉ pmKeys m₂ →
      emLookup (emUpdate m₁ m₂) k = emLookup m₁ k
  | [], _, _, _ => rfl
  | (k₀, v₀) :: t, m₁, k, h => by
    rw [pmKeys_cons, List.mem_cons, not_or] at h
    rw [emUpdate_cons, emUpdate_lookup_not_mem t (emSet m₁ k₀ v₀) k h.2]
    exact pmFind_set_ne m₁ k₀ k v₀ h.1

lemma emUpdate_lookup_of_nodup :
    ∀ (m₂ m₁ : EntityMap) (k : String) (v : Option String), (pmKeys m₂).Nodup →
      emLookup m₂ k = some v → emLookup (emUpdate m₁ m₂) k = some v
  | [], _, _, _, _, h => by simp [emLookup, pmFind] at h
  | (k₀, v₀) :: t, m₁, k, v, hnd, h => by
    rw [pmKeys_cons, List.nodup_cons] at hnd
    rw [emUpdate_cons]
    by_cases hk : (k₀ == k) = true
    · have hk' : k₀ = k := by simpa using hk
      have hv : v = v₀ := by
        unfold emLookup at h
        rw [pmFind_cons, if_pos hk] at h
        exact (Option.some_inj.mp h).symm
      have hknt : k ∉ pmKeys t := hk' ▸ hnd.1
      rw [emUpdate_lookup_not_mem t (emSet m₁ k₀ v₀) k hknt]
      subst hk'
      rw [hv]
      exact pmFind_set_self m₁ k₀ v₀
    · have ht : emLookup t k = some v := by
        unfold emLookup at h ⊢
        rw [pmFind_cons, if_neg hk] at h
        exact h
      exact emUpdate_lookup_of_nodup t (emSet m₁ k₀ v₀) k v hnd.2 ht

/-! ## Lemmas about the address assembler -/

lemma pyTruthyStr_none : pyTruthyStr none = false := rfl

lemma emGet_nil (k : String) : emGet [] k = none := rfl

lemma pyOr_someUSA_truthy (a : Option String) : pyTruthyStr (pyOr a (some "USA")) = true := by
  unfold pyOr
  split
  · assumption
  · rfl

lemma afUpdate_country (af : AddrFields) (p : AddrParts) :
    (afUpdate af p).country = af.country := rfl

lemma afBlockStage_country (e : EntityMap) (p : String) (af : AddrFields) :
    (afBlockStage e p af).country = af.country := by
  unfold afBlockStage
  split <;> rfl

lemma afBillToStage_country (e : EntityMap) (p : String) (af : AddrFields) :
    (afBillToStage e p af).country = af.country := by
  unfold afBillToStage
  repeat' split
  all_goals rfl

lemma afConsigneeStage_country (e : EntityMap) (p : String) (af : AddrFields) :
    (afConsigneeStage e p af).country = af.country := by
  unfold afConsigneeStage
  split
  · show (if pyIn " - " ((emGet e "consignee_name").getD "") = true then
        match pySplitOnceAfter " - " ((emGet e "consignee_name").getD "") with
        | some rest => { af with name := some (pyStrip rest) }
        | none => af
      else { af with name := some (pyStrip ((emGet e "consignee_name").getD "")) }).country =
      af.country
    split
    · split <;> rfl
    · rfl
  · rfl

lemma afAny_of_country {af : AddrFields} (h : pyTruthyStr af.country = true) :
    afAny af = true := by
  unfold afAny
  rw [h]
  simp

lemma afNorm_of_truthy {o : Option String} (h : pyTruthyStr o = true) : afNorm o = o := by
  unfold afNorm
  rw [if_pos h]

/-- The address assembler always returns an address whose country
component is populated (the `"USA"` default makes `any(...)` true). -/
lemma addr_always_some (e : EntityMap) (p : String) :
    ∃ a : Address, _extract_address_from_entities e p = some a ∧ pyTruthyStr a.country = true := by
  unfold _extract_address_from_entities
  have hc : (afConsigneeStage e p
      (afBillToStage e p
        (afBlockStage e p (afWithCountry e p (afDirectFields e p))))).country =
      pyOr (emGet e (p ++ "_country")) (some "USA") := by
    rw [afConsigneeStage_country, afBillToStage_country, afBlockStage_country]
    rfl
  have hct : pyTruthyStr (afConsigneeStage e p
      (afBillToStage e p
        (afBlockStage e p (afWithCountry e p (afDirectFields e p))))).country = true := by
    rw [hc]
    exact pyOr_someUSA_truthy _
  rw [if_pos (afAny_of_country hct)]
  refine ⟨_, rfl, ?_⟩
  show pyTruthyStr (afNorm _) = true
  rw [afNorm_of_truthy hct]
  exact hct

lemma addr_isSome (e : EntityMap) (p : String) :
    (_extract_address_from_entities e p).isSome = true := by
  obtain ⟨a, ha, _⟩ := addr_always_some e p
  rw [ha]
  rfl

/-! ## Lemmas about the extraction cascade and the splitter -/

lemma pmKeysNodup_formFieldStep_aux (acc : EntityMap) (nm val : String)
    (h : (pmKeys acc).Nodup) :
    (pmKeys (if nm ≠ "" then
      match _map_form_field_to_entity nm with
      | some key => emSet acc key (some (pyStrip val))
      | none => acc
    else acc)).Nodup := by
  split
  · split
    · exact pmKeysNodup_set _ _ _ h
    · exact h
  · exact h

lemma pmKeysNodup_formFieldStep (ft : String) (acc : EntityMap) (f : FormField)
    (h : (pmKeys acc).Nodup) : (pmKeys (formFieldStep ft acc f)).Nodup := by
  unfold formFieldStep
  exact pmKeysNodup_formFieldStep_aux acc _ _ h

lemma pmKeysNodup_foldl_formFieldStep (ft : String) :
    ∀ (fields : List FormField) (acc : EntityMap), (pmKeys acc).Nodup →
      (pmKeys (fields.foldl (formFieldStep ft) acc)).Nodup
  | [], _, h => h
  | f :: rest, acc, h =>
    pmKeysNodup_foldl_formFieldStep ft rest (formFieldStep ft acc f)
      (pmKeysNodup_formFieldStep ft acc f h)

/-- The per-page form-field entity map has pairwise distinct keys. -/
lemma pageFF_keysNodup (page : Page) (ft : String) :
    (pmKeys (_extract_entities_from_page page ft)).Nodup := by
  unfold _extract_entities_from_page
  split
  · simp [pmKeys]
  · exact pmKeysNodup_foldl_formFieldStep ft page.form_fields [] (by simp [pmKeys])

lemma isEmpty_false_of_ne_nil {α : Type} {l : List α} (h : l ≠ []) : l.isEmpty = false := by
  cases l with
  | nil => exact absurd rfl h
  | cons a t => rfl

/-- Every per-page candidate is accepted: its shipper address is always
present (the country default makes the assembler total). -/
lemma acceptBOL_pageBOL (doc : DAIDocument) (docId : String) (n : Nat) (page : Page) :
    acceptBOL (pageBOL doc docId n page) = true := by
  have hs : (pageBOL doc docId n page).shipper =
      _extract_address_from_entities (pageMergedEntities doc page) "shipper" := rfl
  unfold acceptBOL
  rw [hs]
  obtain ⟨a, ha, _⟩ := addr_always_some (pageMergedEntities doc page) "shipper"
  rw [ha]
  simp

lemma acceptedCandidates_eq_all (doc : DAIDocument) (docId : String) :
    acceptedCandidates doc docId = allPageCandidates doc docId := by
  unfold acceptedCandidates
  apply List.filter_eq_self.mpr
  intro b hb
  unfold allPageCandidates at hb
  obtain ⟨ip, _, rfl⟩ := List.mem_map.mp hb
  exact acceptBOL_pageBOL doc docId ip.1 ip.2

lemma allPageCandidates_ne_nil (doc : DAIDocument) (docId : String)
    (hp : doc.pages ≠ []) : allPageCandidates doc docId ≠ [] := by
  unfold allPageCandidates
  intro h
  rw [List.map_eq_nil_iff] at h
  exact hp (by simpa using h)

/-- With at least one page, the result of `extract_multiple_bols` is
exactly the accepted per-page candidate list. -/
lemma extract_multiple_bols_eq_accepted (doc : DAIDocument) (docId : String)
    (hp : doc.pages ≠ []) : extract_multiple_bols doc docId = acceptedCandidates doc docId := by
  unfold extract_multiple_bols
  rw [if_neg (by simp [isEmpty_false_of_ne_nil hp])]
  rw [if_neg]
  intro hacc
  rw [List.isEmpty_iff] at hacc
  rw [acceptedCandidates_eq_all] at hacc
  exact allPageCandidates_ne_nil doc docId hp hacc

/-! ## Validation-membership lemmas -/

lemma mem_validate_items {b : BOLData} (h : b.shipment_items = []) :
    "No shipment items found" ∈ validate_bol_data b := by
  unfold validate_bol_data
  rw [h]
  simp [List.mem_append]

lemma mem_validate_low_of_empty {b : BOLData} (h : b.confidence_scores = []) :
    "Low overall confidence score" ∈ validate_bol_data b := by
  unfold validate_bol_data qmGetD qmLookup
  rw [h]
  have h0 : (0 : ℚ) < 6 / 10 := by norm_num
  simp [List.mem_append, pmFind, h0]

lemma mem_validate_low_of_lt {b : BOLData} (h : qmGetD b.confidence_scores "overall" 0 < 6 / 10) :
    "Low overall confidence score" ∈ validate_bol_data b := by
  unfold validate_bol_data
  rw [if_pos h]
  simp [List.mem_append]

/-! ## Concrete fixtures used by the witnesses and counterexamples -/

/-- A page with no layout, form fields or tables (its page text is `""`). -/
def wPage : Page := {}

/-- A one-page document with empty text. -/
def wDoc : DAIDocument := { text := "", pages := [wPage] }

/-- A page of `c1Doc` carrying one form field: name anchor `[0,5)`
(`"BOL #"`) and value anchor `[5,6)` (`"9"`). -/
def c1Page : Page :=
  { layout := some { text_anchor := some { text_segments := [{ start_index := 0, end_index := 7 }] } },
    form_fields :=
      [{ field_name := some { text_anchor := some { text_segments := [{ start_index := 0, end_index := 5 }] } },
         field_value := some { text_anchor := some { text_segments := [{ start_index := 5, end_index := 6 }] } } }] }

/-- Document whose form field yields `bol_number ↦ "9"` while the raw-text
battery on the same text yields `bol_number ↦ "98"`. -/
def c1Doc : DAIDocument := { text := "BOL #98", pages := [c1Page] }

/-- 0.9 and 0.7 in the constructor normal form of `ℚ` (the kernel cannot
reduce rational division, whose normalisation is well-founded `gcd`). -/
def conf09 : ℚ := ⟨9, 10, by norm_num, by norm_num⟩

def conf07 : ℚ := ⟨7, 10, by norm_num, by norm_num⟩

/-- 0.4 in the constructor normal form of `ℚ`. -/
def conf04 : ℚ := ⟨2, 5, by norm_num, by norm_num⟩

/-- Two detected entities with confidences 0.9 and 0.7. -/
def c5Doc : DAIDocument :=
  { entities := [{ type_ := "bol number", confidence := conf09 },
                 { type_ := "total", confidence := conf07 }] }

/-- A page whose text is `"NMFC #1  "` (two trailing blanks). -/
def c8Page : Page :=
  { layout := some { text_anchor := some { text_segments := [{ start_index := 0, end_index := 9 }] } } }

def c8Doc : DAIDocument := { text := "NMFC #1  ", pages := [c8Page] }

/-- A record with no line items and an `"overall"` confidence of 0.4. -/
def c9Bol : BOLData := { bol_id := "b", confidence_scores := [("overall", conf04)] }

/-! ## The claims -/

lemma afBillToStage_nil (p : String) (af : AddrFields) : afBillToStage [] p af = af := by
  unfold afBillToStage
  split
  · rfl
  · rfl

lemma afConsigneeStage_nil (p : String) (af : AddrFields) : afConsigneeStage [] p af = af := by
  unfold afConsigneeStage
  split
  next h =>
    rw [show pyTruthyStr (emGet ([] : EntityMap) "consignee_name") = false from rfl,
      Bool.and_false] at h
    exact absurd h Bool.false_ne_true
  next => rfl

/-- C2 (counterexample): the claim says the assembler returns no `Address`
exactly when every candidate component is absent; on the empty entity map
(every component absent) it nevertheless returns an `Address`, populated
with the defaulted country `"USA"`. -/
theorem C2_counterexample_empty_map_gives_address :
    _extract_address_from_entities [] "shipper" = some { country := some "USA" } ∧
    ¬(_extract_address_from_entities [] "shipper" = none) := by
  constructor
  · decide
  · decide

/-- C2 (amended): for every entity map and role prefix the address
assembler returns an `Address` (never absence) whose country component is
populated (defaulting to `"USA"`); in particular on an entity map with
every candidate component absent the result is the address carrying only
the default country. -/
theorem C2_address_always_returned :
    (∀ (entities : EntityMap) (pfx : String),
      ∃ a : Address, _extract_address_from_entities entities pfx = some a ∧
        pyTruthyStr a.country = true) ∧
    (∀ pfx : String,
      _extract_address_from_entities [] pfx = some { country := some "USA" }) := by
  constructor
  · exact addr_always_some
  · intro pfx
    have h1 : afBlockStage [] pfx (afWithCountry [] pfx (afDirectFields [] pfx)) =
        ({ country := some "USA" } : AddrFields) := rfl
    have h2 : afConsigneeStage [] pfx
        (afBillToStage [] pfx
          (afBlockStage [] pfx (afWithCountry [] pfx (afDirectFields [] pfx)))) =
        ({ country := some "USA" } : AddrFields) := by
      rw [h1, afBillToStage_nil, afConsigneeStage_nil]
    show (if afAny (afConsigneeStage [] pfx
        (afBillToStage [] pfx
          (afBlockStage [] pfx (afWithCountry [] pfx (afDirectFields [] pfx))))) then
        some (afToAddress (afConsigneeStage [] pfx
          (afBillToStage [] pfx
            (afBlockStage [] pfx (afWithCountry [] pfx (afDirectFields [] pfx))))))
      else none) = some { country := some "USA" }
    rw [h2]
    rfl

/-- C3: the multi-record split never returns an empty sequence; a per-page
candidate is kept exactly when it has a BOL number, a shipper address or a
consignee address; and with pages present the result is the accepted
candidates, falling back to one whole-document record when none is
accepted. -/
theorem C3_split_never_empty :
    ∀ (doc : DAIDocument) (docId : String),
      extract_multiple_bols doc docId ≠ [] ∧
      (∀ b : BOLData, b ∈ acceptedCandidates doc docId ↔
        b ∈ allPageCandidates doc docId ∧ acceptBOL b = true) ∧
      (doc.pages ≠ [] →
        extract_multiple_bols doc docId =
          if (acceptedCandidates doc docId).isEmpty then [extract_bol_data doc docId]
          else acceptedCandidates doc docId) := by
  intro doc docId
  refine ⟨?_, ?_, ?_⟩
  · by_cases hp : doc.pages = []
    · unfold extract_multiple_bols
      rw [if_pos (by rw [hp]; rfl)]
      simp
    · rw [extract_multiple_bols_eq_accepted doc docId hp, acceptedCandidates_eq_all]
      exact allPageCandidates_ne_nil doc docId hp
  · intro b
    unfold acceptedCandidates
    exact List.mem_filter
  · intro hp
    unfold extract_multiple_bols
    rw [if_neg (by rw [isEmpty_false_of_ne_nil hp]; exact Bool.false_ne_true)]

theorem C3_split_never_empty_witness :
    extract_multiple_bols wDoc "doc" ≠ [] ∧
    wDoc.pages ≠ [] ∧
    extract_multiple_bols wDoc "doc" =
      (if (acceptedCandidates wDoc "doc").isEmpty then [extract_bol_data wDoc "doc"]
       else acceptedCandidates wDoc "doc") :=
  ⟨(C3_split_never_empty wDoc "doc").1, by decide,
   (C3_split_never_empty wDoc "doc").2.2 (by decide)⟩

/-- C5: the synthesized `"overall"` confidence equals the arithmetic mean
of the per-field scores present, and the scores map is `{"overall": 0.0}`
when no per-field score is present. -/
theorem C5_overall_is_mean :
    ∀ doc : DAIDocument,
      (entityScores doc ≠ [] →
        qmLookup (_calculate_confidence_scores doc) "overall" =
          some ((((entityScores doc).map (fun p => p.2)).sum) / ((entityScores doc).length : ℚ))) ∧
      (entityScores doc = [] → _calculate_confidence_scores doc = [("overall", 0)]) := by
  intro doc
  constructor
  · intro h
    unfold _calculate_confidence_scores
    rw [if_pos (by rw [isEmpty_false_of_ne_nil h]; rfl)]
    exact pmFind_set_self _ _ _
  · intro h
    unfold _calculate_confidence_scores
    rw [h]
    rfl

theorem C5_overall_is_mean_witness :
    qmLookup (_calculate_confidence_scores c5Doc) "overall" =
      some ((((entityScores c5Doc).map (fun p => p.2)).sum) / ((entityScores c5Doc).length : ℚ)) ∧
    qmLookup (_calculate_confidence_scores c5Doc) "overall" = some (4 / 5) ∧
    _calculate_confidence_scores {} = [("overall", 0)] := by
  have h1 : entityScores c5Doc ≠ [] := by decide
  have h2 := (C5_overall_is_mean c5Doc).1 h1
  refine ⟨h2, ?_, (C5_overall_is_mean {}).2 rfl⟩
  rw [h2]
  have h3 : entityScores c5Doc = [("bol_number", conf09), ("total", conf07)] := by decide
  rw [h3]
  simp only [List.map_cons, List.map_nil, List.sum_cons, List.sum_nil, List.length_cons,
    List.length_nil]
  congr 1
  rw [conf09, conf07, Rat.mk'_eq_divInt, Rat.mk'_eq_divInt]
  norm_num [Rat.divInt_eq_div]

/-- C6: every scalar parser is a total function returning a typed value or
absence ("never raises" in the embedding); `None` and unparseable input
both yield absence, and the documented date examples parse as stated. -/
theorem C6_parsers_total :
    (∀ s : Option String, _parse_date s = none ∨ ∃ d, _parse_date s = some d) ∧
    (_parse_date none = none ∧ _parse_date (some "not-a-date") = none ∧
     _parse_date (some "9/18/2025") = some ⟨2025, 9, 18⟩ ∧
     _parse_date (some "2024-01-15") = some ⟨2024, 1, 15⟩ ∧
     _parse_amount none = none ∧ _parse_amount (some "not-a-date") = none ∧
     _parse_float none = none ∧ _parse_float (some "not-a-date") = none ∧
     _parse_int none = none ∧ _parse_int (some "not-a-date") = none) := by
  constructor
  · intro s
    cases h : _parse_date s with
    | none => exact Or.inl rfl
    | some d => exact Or.inr ⟨d, rfl⟩
  · exact by decide

/-- C7: the amount parser keeps only digits, dots, commas and minus signs,
drops the commas, and yields the exact decimal value of the remainder
(every produced value is an integer divided by a power of ten, never a
binary-float approximation); `"$5,110.00"` gives exactly 5110, and `""` /
`None` give absence. -/
theorem C7_amount_exact_decimal :
    _parse_amount (some "$5,110.00") = some (5110 : ℚ) ∧
    _parse_amount (some "") = none ∧
    _parse_amount none = none ∧
    (∀ s₁ s₂ : String, s₁ ≠ "" → s₂ ≠ "" → amountClean s₁ = amountClean s₂ →
      _parse_amount (some s₁) = _parse_amount (some s₂)) ∧
    (∀ (s : String) (q : ℚ), _parse_amount (some s) = some q →
      ∃ (n : ℤ) (k : ℕ), q = (n : ℚ) / 10 ^ k) := by
  refine ⟨?_, rfl, rfl, ?_, ?_⟩
  · have hp : decParseParts (amountClean "$5,110.00") = some ((511000 : ℤ), 2) := by decide
    simp only [_parse_amount]
    rw [if_neg (by decide : ¬("$5,110.00" = ""))]
    unfold decParse
    rw [hp, Option.map_some']
    congr 1
    norm_num
  · intro s₁ s₂ h₁ h₂ h
    simp only [_parse_amount]
    rw [if_neg h₁, if_neg h₂]
    unfold decParse
    rw [h]
  · intro s q h
    simp only [_parse_amount] at h
    by_cases hs : s = ""
    · rw [if_pos hs] at h
      exact absurd h (by simp)
    · rw [if_neg hs] at h
      unfold decParse at h
      obtain ⟨parts, _, hq⟩ := Option.map_eq_some'.mp h
      exact ⟨parts.1, parts.2, hq.symm⟩

theorem C7_amount_exact_decimal_witness :
    (∃ (n : ℤ) (k : ℕ), (5110 : ℚ) = (n : ℚ) / 10 ^ k) ∧
    _parse_amount (some "$5,110.00") = _parse_amount (some "USD 5,110.00 total") :=
  ⟨C7_amount_exact_decimal.2.2.2.2 "$5,110.00" 5110 C7_amount_exact_decimal.1,
   C7_amount_exact_decimal.2.2.2.1 "$5,110.00" "USD 5,110.00 total" (by decide) (by decide)
     (by decide)⟩

/-- C9: a successfully constructed record with no line items and an
`"overall"` confidence of 0.4 gets at least the two warnings about missing
shipment items and low overall confidence; validation is a total function
returning the warnings (the record is not rejected). -/
theorem C9_low_confidence_warnings :
    ∀ b : BOLData, b.shipment_items = [] →
      qmLookup b.confidence_scores "overall" = some (2 / 5) →
      "No shipment items found" ∈ validate_bol_data b ∧
      "Low overall confidence score" ∈ validate_bol_data b := by
  intro b h1 h2
  refine ⟨mem_validate_items h1, mem_validate_low_of_lt ?_⟩
  unfold qmGetD
  rw [h2]
  norm_num

theorem C9_low_confidence_warnings_witness :
    "No shipment items found" ∈ validate_bol_data c9Bol ∧
    "Low overall confidence score" ∈ validate_bol_data c9Bol :=
  C9_low_confidence_warnings c9Bol rfl (by
    have h : qmLookup c9Bol.confidence_scores "overall" = some conf04 := by decide
    rw [h]
    congr 1
    rw [conf04, Rat.mk'_eq_divInt, Rat.divInt_eq_div]
    norm_num)

/-- C1: when form-field extraction yields a value `v` for a canonical key
and the raw-text battery would yield a different value `w` for the same
key, the entity map of the final record retains the form-field value: in
`_extract_entities` the later stages run only on an empty map, and in the
per-page path the form-field entities are merged over the raw-text ones. -/
theorem C1_form_field_precedence :
    (∀ (doc : DAIDocument) (k : String) (v w : Option String),
      emLookup (formFieldEntities doc) k = some v →
      emLookup (_extract_from_text doc.text) k = some w →
      v ≠ w →
      emLookup (_extract_entities doc) k = some v) ∧
    (∀ (doc : DAIDocument) (page : Page) (k : String) (v w : Option String),
      emLookup (_extract_entities_from_page page doc.text) k = some v →
      emLookup (_extract_from_text (_get_page_text doc page)) k = some w →
      emLookup (pageMergedEntities doc page) k = some v) := by
  constructor
  · intro doc k v w h1 _ _
    have hne : formFieldEntities doc ≠ [] := pmFind_some_ne_nil h1
    unfold _extract_entities
    simp only [isEmpty_false_of_ne_nil hne, Bool.false_and, Bool.false_eq_true, if_false]
    exact h1
  · intro doc page k v w h1 _
    have hne : _extract_entities_from_page page doc.text ≠ [] := pmFind_some_ne_nil h1
    have hff : page.form_fields ≠ [] := by
      intro hf
      apply hne
      unfold _extract_entities_from_page
      rw [hf]
      rfl
    unfold pageMergedEntities
    rw [if_pos (by rw [isEmpty_false_of_ne_nil hff]; rfl)]
    exact emUpdate_lookup_of_nodup _ _ _ _ (pageFF_keysNodup page doc.text) h1

theorem C1_form_field_precedence_witness :
    emLookup (_extract_entities c1Doc) "bol_number" = some (some "9") ∧
    emLookup (pageMergedEntities c1Doc c1Page) "bol_number" = some (some "9") :=
  ⟨C1_form_field_precedence.1 c1Doc "bol_number" (some "9") (some "98") (by decide) (by decide)
     (by decide),
   C1_form_field_precedence.2 c1Doc c1Page "bol_number" (some "9") (some "98") (by decide)
     (by decide)⟩

/-- C4: a text with exactly two record-number marker occurrences splits
into exactly two sections — the first from the first occurrence to the
second, the second from the second occurrence to the end of the text; a
text with at most one occurrence yields one section covering the whole
text, and a document with no page data yields exactly one whole-document
record. -/
theorem C4_marker_split :
    (∀ (text : String) (n₁ : String) (p₁ : Nat) (n₂ : String) (p₂ : Nat),
      bolMarkers text = [(n₁, p₁), (n₂, p₂)] →
      _detect_multiple_bols text =
        [{ text := String.mk (pySlice text.toList p₁ p₂), bol_number := some n₁,
           position := some p₁ },
         { text := String.mk (pySlice text.toList p₂ text.toList.length), bol_number := some n₂,
           position := some p₂ }]) ∧
    (∀ text : String, (bolMarkers text).length ≤ 1 →
      _detect_multiple_bols text =
        [{ text := text, bol_number := (bolMarkers text).head?.map (fun p => p.1),
           position := none }]) ∧
    (∀ (doc : DAIDocument) (docId : String), doc.pages = [] →
      extract_multiple_bols doc docId = [extract_bol_data doc docId]) := by
  refine ⟨?_, ?_, ?_⟩
  · intro text n₁ p₁ n₂ p₂ h
    simp only [_detect_multiple_bols]
    rw [h]
    rfl
  · intro text h
    simp only [_detect_multiple_bols]
    rw [if_pos h]
  · intro doc docId h
    unfold extract_multiple_bols
    rw [if_pos (by rw [h]; rfl)]

theorem C4_marker_split_witness :
    _detect_multiple_bols "BOL # 12 x BOL # 34" =
      [{ text := String.mk (pySlice "BOL # 12 x BOL # 34".toList 0 11), bol_number := some "12",
         position := some 0 },
       { text := String.mk (pySlice "BOL # 12 x BOL # 34".toList 11
           "BOL # 12 x BOL # 34".toList.length), bol_number := some "34", position := some 11 }] ∧
    _detect_multiple_bols "x" =
      [{ text := "x", bol_number := (bolMarkers "x").head?.map (fun p => p.1), position := none }] ∧
    extract_multiple_bols { text := "x" } "d" = [extract_bol_data { text := "x" } "d"] :=
  ⟨C4_marker_split.1 "BOL # 12 x BOL # 34" "12" 0 "34" 11 (by decide),
   C4_marker_split.2.1 "x" (by decide),
   C4_marker_split.2.2 { text := "x" } "d" rfl⟩

/-- C8 (code evaluated at the failing input): the final raw-text fallback
of `_extract_items_from_page` can construct a `ShipmentItem` whose
description is the empty string — page text `"NMFC #1  "` (an NMFC code
followed by two blanks) matches the code/description pair pattern with a
whitespace-only description, which strips to `""`, and the resulting item
is placed in a returned record.  This contradicts the non-empty-description
invariant the other extraction paths enforce. -/
theorem C8_empty_description_item :
    _extract_items_from_page c8Page "NMFC #1  " =
      [{ description := "", nmfc_code := some "1" }] ∧
    ∃ b ∈ extract_multiple_bols c8Doc "doc", ∃ item ∈ b.shipment_items, item.description = "" := by
  constructor
  · decide
  · decide

/-- C10: every record produced by the per-page multi-record path has an
empty confidence-scores map (no "overall" key), and the validation step,
reading the missing "overall" as 0, emits the low-overall-confidence
warning for every such record. -/
theorem C10_page_split_records_have_no_confidence :
    ∀ (doc : DAIDocument) (docId : String), doc.pages ≠ [] →
      ∀ b ∈ extract_multiple_bols doc docId,
        b.confidence_scores = [] ∧ "Low overall confidence score" ∈ validate_bol_data b := by
  intro doc docId hp b hb
  rw [extract_multiple_bols_eq_accepted doc docId hp, acceptedCandidates_eq_all] at hb
  obtain ⟨ip, _, rfl⟩ := List.mem_map.mp hb
  have hcs : (pageBOL doc docId ip.1 ip.2).confidence_scores = [] := rfl
  exact ⟨hcs, mem_validate_low_of_empty hcs⟩

theorem C10_page_split_records_have_no_confidence_witness :
    (pageBOL wDoc "doc" 0 wPage).confidence_scores = [] ∧
    "Low overall confidence score" ∈ validate_bol_data (pageBOL wDoc "doc" 0 wPage) :=
  C10_page_split_records_have_no_confidence wDoc "doc" (by decide) (pageBOL wDoc "doc" 0 wPage)
    (by decide)
